import Mathlib

/-!
Shallow embedding of `src/country-codes.go` from launchdarkly/go-country-codes.

The Go file defines a static table `by_alpha2` of 268 `CountryCode` literals,
an `init` function that derives the indexes `by_name`, `by_alpha3`,
`by_numeric` and a patricia trie `name_trie` keyed by the lowercased name,
and the accessors `GetByAlpha2`, `GetByAlpha3`, `GetByName`, `FindByName`.

Modelling choices, all taken from the source:
- Go maps are modelled as association lists with first-match lookup; a map
  write conses on the front, so a later write shadows an earlier one
  (last-write-wins), exactly as Go map assignment behaves.
- Go's `init` iterates over the `by_alpha2` map in unspecified order; the
  embedding fixes the order in which the literals appear in the source.
- The patricia trie (`github.com/tchap/go-patricia`) is modelled as an
  association list in insertion order: `Trie.Insert` does not replace an
  existing item (it returns false when the key is already present), and
  `VisitSubtree(p)` visits exactly the entries whose key has `p` as a
  prefix.  Visitation order is unspecified in the source; every property
  proved below is insensitive to it.
- `patricia.Item` is Go's `interface{}`; it is modelled by `Item`, which can
  hold a `CountryCode` or an arbitrary other value, and the type assertion
  `item.(CountryCode)` in `FindByName` is modelled by `assertCC`, with
  `none` standing for the run-time panic of a failed assertion.
- `strings.ToLower` is modelled by `strLower`, covering ASCII, the Latin-1
  uppercase range and U+212B (the one non-ASCII letter that occurs in the
  data, in the name of AX).
-/

namespace CountryCodes

/-- Embeds the Go `Assignment` enumeration (`iota`-numbered, so the zero
value is `OFFICIALLY_ASSIGNED`). -/
inductive Assignment where
  | OFFICIALLY_ASSIGNED
  | USER_ASSIGNED
  | EXCEPTIONALLY_RESERVED
  | TRANSITIONALLY_RESERVED
  | INDETERMINATELY_RESERVED
  | NOT_USED
  deriving DecidableEq

/-- Embeds the Go struct `CountryCode`. -/
structure CountryCode where
  Name : String
  Alpha2 : String
  Alpha3 : String
  Numeric : Int
  DialingCode : String
  Assignment : Assignment
  deriving DecidableEq

/-- Embeds the Go zero value of `CountryCode`, which a map lookup on an
absent key returns: empty strings, `0`, and `Assignment(0)`. -/
def zeroCC : CountryCode := ⟨"", "", "", 0, "", .OFFICIALLY_ASSIGNED⟩

/-- Embeds Go `unicode.ToLower` on the characters relevant to this data set:
ASCII letters, the Latin-1 uppercase block (U+00C0 to U+00DE, multiplication
sign excepted), and U+212B (angstrom sign, which Unicode lowercases to
U+00E5); every other character is left unchanged. -/
def toLowerGo (c : Char) : Char :=
  if 65 ≤ c.toNat ∧ c.toNat ≤ 90 then Char.ofNat (c.toNat + 32)
  else if 0xC0 ≤ c.toNat ∧ c.toNat ≤ 0xDE ∧ c.toNat ≠ 0xD7 then Char.ofNat (c.toNat + 32)
  else if c.toNat = 0x212B then Char.ofNat 0xE5
  else c

/-- Embeds Go `strings.ToLower`, character by character. -/
def strLower (s : String) : String := String.mk (s.data.map toLowerGo)

/-- Embeds Go `strings.HasPrefix s pre` (equivalently, the byte-prefix
relation the patricia trie uses, which on valid strings coincides with the
character-prefix relation). -/
def strStartsWith (s pre : String) : Bool := pre.data.isPrefixOf s.data

/-- Embeds the Go map literal `by_alpha2`, in source order. -/
def by_alpha2 : List (String × CountryCode) := [
  (Prod.mk "AC" (CountryCode.mk "Ascension Island" "AC" "ASC" (-1) "+247" Assignment.EXCEPTIONALLY_RESERVED)),
  (Prod.mk "AD" (CountryCode.mk "Andorra" "AD" "AND" 20 "+376" Assignment.OFFICIALLY_ASSIGNED)),
  (Prod.mk "AE" (CountryCode.mk "United Arab Emirates" "AE" "ARE" 784 "+971" Assignment.OFFICIALLY_ASSIGNED)),
  (Prod.mk "AF" (CountryCode.mk "Afghanistan" "AF" "AFG" 4 "+93" Assignment.OFFICIALLY_ASSIGNED)),
  (Prod.mk "AG" (CountryCode.mk "Antigua and Barbuda" "AG" "ATG" 28 "+1-268" Assignment.OFFICIALLY_ASSIGNED)),
  (Prod.mk "AI" (CountryCode.mk "Anguilla" "AI" "AIA" 660 "+1-264" Assignment.OFFICIALLY_ASSIGNED)),
  (Prod.mk "AL" (CountryCode.mk "Albania" "AL" "ALB" 8 "+355" Assignment.OFFICIALLY_ASSIGNED)),
  (Prod.mk "AM" (CountryCode.mk "Armenia" "AM" "ARM" 51 "+374" Assignment.OFFICIALLY_ASSIGNED)),
  (Prod.mk "AN" (CountryCode.mk "Netherlands Antilles" "AN" "ANHH" 530 "+599" Assignment.TRANSITIONALLY_RESERVED)),
  (Prod.mk "AO" (CountryCode.mk "Angola" "AO" "AGO" 24 "+244" Assignment.OFFICIALLY_ASSIGNED)),
  (Prod.mk "AQ" (CountryCode.mk "Antarctica" "AQ" "ATA" 10 "+672" Assignment.OFFICIALLY_ASSIGNED)),
  (Prod.mk "AR" (CountryCode.mk "Argentina" "AR" "ARG" 32 "+54" Assignment.OFFICIALLY_ASSIGNED)),
  (Prod.mk "AS" (CountryCode.mk "American Samoa" "AS" "ASM" 16 "+1-684" Assignment.OFFICIALLY_ASSIGNED)),
  (Prod.mk "AT" (CountryCode.mk "Austria" "AT" "AUT" 40 "+43" Assignment.OFFICIALLY_ASSIGNED)),
  (Prod.mk "AU" (CountryCode.mk "Australia" "AU" "AUS" 36 "+61" Assignment.OFFICIALLY_ASSIGNED)),
  (Prod.mk "AW" (CountryCode.mk "Aruba" "AW" "ABW" 533 "+297" Assignment.OFFICIALLY_ASSIGNED)),
  (Prod.mk "AX" (CountryCode.mk "\u212Bland Islands" "AX" "ALA" 248 "" Assignment.OFFICIALLY_ASSIGNED)),
  (Prod.mk "AZ" (CountryCode.mk "Azerbaijan" "AZ" "AZE" 31 "+994" Assignment.OFFICIALLY_ASSIGNED)),
  (Prod.mk "BA" (CountryCode.mk "Bosnia and Herzegovina" "BA" "BIH" 70 "+387" Assignment.OFFICIALLY_ASSIGNED)),
  (Prod.mk "BB" (CountryCode.mk "Barbados" "BB" "BRB" 52 "+1-246" Assignment.OFFICIALLY_ASSIGNED)),
  (Prod.mk "BD" (CountryCode.mk "Bangladesh" "BD" "BGD" 50 "+880" Assignment.OFFICIALLY_ASSIGNED)),
  (Prod.mk "BE" (CountryCode.mk "Belgium" "BE" "BEL" 56 "+32" Assignment.OFFICIALLY_ASSIGNED)),
  (Prod.mk "BF" (CountryCode.mk "Burkina Faso" "BF" "BFA" 854 "+226" Assignment.OFFICIALLY_ASSIGNED)),
  (Prod.mk "BG" (CountryCode.mk "Bulgaria" "BG" "BGR" 100 "+359" Assignment.OFFICIALLY_ASSIGNED)),
  (Prod.mk "BH" (CountryCode.mk "Bahrain" "BH" "BHR" 48 "+973" Assignment.OFFICIALLY_ASSIGNED)),
  (Prod.mk "BI" (CountryCode.mk "Burundi" "BI" "BDI" 108 "+257" Assignment.OFFICIALLY_ASSIGNED)),
  (Prod.mk "BJ" (CountryCode.mk "Benin" "BJ" "BEN" 204 "+229" Assignment.OFFICIALLY_ASSIGNED)),
  (Prod.mk "BL" (CountryCode.mk "Saint Barth\u00E9lemy" "BL" "BLM" 652 "+590" Assignment.OFFICIALLY_ASSIGNED)),
  (Prod.mk "BM" (CountryCode.mk "Bermuda" "BM" "BMU" 60 "+1-441" Assignment.OFFICIALLY_ASSIGNED)),
  (Prod.mk "BN" (CountryCode.mk "Brunei Darussalam" "BN" "BRN" 96 "+673" Assignment.OFFICIALLY_ASSIGNED)),
  (Prod.mk "BO" (CountryCode.mk "Bolivia, Plurinational State of" "BO" "BOL" 68 "+591" Assignment.OFFICIALLY_ASSIGNED)),
  (Prod.mk "BQ" (CountryCode.mk "Bonaire, Sint Eustatius and Saba" "BQ" "BES" 535 "+599" Assignment.OFFICIALLY_ASSIGNED)),
  (Prod.mk "BR" (CountryCode.mk "Brazil" "BR" "BRA" 76 "+55" Assignment.OFFICIALLY_ASSIGNED)),
  (Prod.mk "BS" (CountryCode.mk "Bahamas" "BS" "BHS" 44 "+1-242" Assignment.OFFICIALLY_ASSIGNED)),
  (Prod.mk "BT" (CountryCode.mk "Bhutan" "BT" "BTN" 64 "+975" Assignment.OFFICIALLY_ASSIGNED)),
  (Prod.mk "BU" (CountryCode.mk "Burma" "BU" "BUMM" 104 "+95" Assignment.TRANSITIONALLY_RESERVED)),
  (Prod.mk "BV" (CountryCode.mk "Bouvet Island" "BV" "BVT" 74 "" Assignment.OFFICIALLY_ASSIGNED)),
  (Prod.mk "BW" (CountryCode.mk "Botswana" "BW" "BWA" 72 "+267" Assignment.OFFICIALLY_ASSIGNED)),
  (Prod.mk "BY" (CountryCode.mk "Belarus" "BY" "BLR" 112 "+375" Assignment.OFFICIALLY_ASSIGNED)),
  (Prod.mk "BZ" (CountryCode.mk "Belize" "BZ" "BLZ" 84 "+501" Assignment.OFFICIALLY_ASSIGNED)),
  (Prod.mk "CA" (CountryCode.mk "Canada" "CA" "CAN" 124 "+1" Assignment.OFFICIALLY_ASSIGNED)),
  (Prod.mk "CC" (CountryCode.mk "Cocos (Keeling) Islands" "CC" "CCK" 166 "+61" Assignment.OFFICIALLY_ASSIGNED)),
  (Prod.mk "CD" (CountryCode.mk "Congo, the Democratic Republic of the" "CD" "COD" 180 "+243" Assignment.OFFICIALLY_ASSIGNED)),
  (Prod.mk "CF" (CountryCode.mk "Central African Republic" "CF" "CAF" 140 "+236" Assignment.OFFICIALLY_ASSIGNED)),
  (Prod.mk "CG" (CountryCode.mk "Congo" "CG" "COG" 178 "+242" Assignment.OFFICIALLY_ASSIGNED)),
  (Prod.mk "CH" (CountryCode.mk "Switzerland" "CH" "CHE" 756 "+41" Assignment.OFFICIALLY_ASSIGNED)),
  (Prod.mk "CI" (CountryCode.mk "C\u00F4te d\x27Ivoire" "CI" "CIV" 384 "+225" Assignment.OFFICIALLY_ASSIGNED)),
  (Prod.mk "CK" (CountryCode.mk "Cook Islands" "CK" "COK" 184 "+682" Assignment.OFFICIALLY_ASSIGNED)),
  (Prod.mk "CL" (CountryCode.mk "Chile" "CL" "CHL" 152 "+56" Assignment.OFFICIALLY_ASSIGNED)),
  (Prod.mk "CM" (CountryCode.mk "Cameroon" "CM" "CMR" 120 "+237" Assignment.OFFICIALLY_ASSIGNED)),
  (Prod.mk "CN" (CountryCode.mk "China" "CN" "CHN" 156 "+86" Assignment.OFFICIALLY_ASSIGNED)),
  (Prod.mk "CO" (CountryCode.mk "Colombia" "CO" "COL" 170 "+57" Assignment.OFFICIALLY_ASSIGNED)),
  (Prod.mk "CP" (CountryCode.mk "Clipperton Island" "CP" "CPT" (-1) "" Assignment.EXCEPTIONALLY_RESERVED)),
  (Prod.mk "CR" (CountryCode.mk "Costa Rica" "CR" "CRI" 188 "+506" Assignment.OFFICIALLY_ASSIGNED)),
  (Prod.mk "CS" (CountryCode.mk "Serbia and Montenegro" "CS" "CSXX" 891 "+381" Assignment.TRANSITIONALLY_RESERVED)),
  (Prod.mk "CU" (CountryCode.mk "Cuba" "CU" "CUB" 192 "+53" Assignment.OFFICIALLY_ASSIGNED)),
  (Prod.mk "CV" (CountryCode.mk "Cape Verde" "CV" "CPV" 132 "+238" Assignment.OFFICIALLY_ASSIGNED)),
  (Prod.mk "CW" (CountryCode.mk "Cura\u00E7ao" "CW" "CUW" 531 "+599" Assignment.OFFICIALLY_ASSIGNED)),
  (Prod.mk "CX" (CountryCode.mk "Christmas Island" "CX" "CXR" 162 "+61" Assignment.OFFICIALLY_ASSIGNED)),
  (Prod.mk "CY" (CountryCode.mk "Cyprus" "CY" "CYP" 196 "+357" Assignment.OFFICIALLY_ASSIGNED)),
  (Prod.mk "CZ" (CountryCode.mk "Czech Republic" "CZ" "CZE" 203 "+420" Assignment.OFFICIALLY_ASSIGNED)),
  (Prod.mk "DE" (CountryCode.mk "Germany" "DE" "DEU" 276 "+49" Assignment.OFFICIALLY_ASSIGNED)),
  (Prod.mk "DG" (CountryCode.mk "Diego Garcia" "DG" "DGA" (-1) "+246" Assignment.EXCEPTIONALLY_RESERVED)),
  (Prod.mk "DJ" (CountryCode.mk "Djibouti" "DJ" "DJI" 262 "+253" Assignment.OFFICIALLY_ASSIGNED)),
  (Prod.mk "DK" (CountryCode.mk "Denmark" "DK" "DNK" 208 "+45" Assignment.OFFICIALLY_ASSIGNED)),
  (Prod.mk "DM" (CountryCode.mk "Dominica" "DM" "DMA" 212 "+1-767" Assignment.OFFICIALLY_ASSIGNED)),
  (Prod.mk "DO" (CountryCode.mk "Dominican Republic" "DO" "DOM" 214 "+1-809, +1-829, +1-849" Assignment.OFFICIALLY_ASSIGNED)),
  (Prod.mk "DZ" (CountryCode.mk "Algeria" "DZ" "DZA" 12 "+213" Assignment.OFFICIALLY_ASSIGNED)),
  (Prod.mk "EA" (CountryCode.mk "Ceuta, Melilla" "EA" "" (-1) "" Assignment.EXCEPTIONALLY_RESERVED)),
  (Prod.mk "EC" (CountryCode.mk "Ecuador" "EC" "ECU" 218 "+593" Assignment.OFFICIALLY_ASSIGNED)),
  (Prod.mk "EE" (CountryCode.mk "Estonia" "EE" "EST" 233 "+372" Assignment.OFFICIALLY_ASSIGNED)),
  (Prod.mk "EG" (CountryCode.mk "Egypt" "EG" "EGY" 818 "+20" Assignment.OFFICIALLY_ASSIGNED)),
  (Prod.mk "EH" (CountryCode.mk "Western Sahara" "EH" "ESH" 732 "+212" Assignment.OFFICIALLY_ASSIGNED)),
  (Prod.mk "ER" (CountryCode.mk "Eritrea" "ER" "ERI" 232 "+291" Assignment.OFFICIALLY_ASSIGNED)),
  (Prod.mk "ES" (CountryCode.mk "Spain" "ES" "ESP" 724 "+34" Assignment.OFFICIALLY_ASSIGNED)),
  (Prod.mk "ET" (CountryCode.mk "Ethiopia" "ET" "ETH" 231 "+251" Assignment.OFFICIALLY_ASSIGNED)),
  (Prod.mk "EU" (CountryCode.mk "European Union" "EU" "" (-1) "" Assignment.EXCEPTIONALLY_RESERVED)),
  (Prod.mk "FI" (CountryCode.mk "Finland" "FI" "FIN" 246 "+358" Assignment.OFFICIALLY_ASSIGNED)),
  (Prod.mk "FJ" (CountryCode.mk "Fiji" "FJ" "FJI" 242 "+679" Assignment.OFFICIALLY_ASSIGNED)),
  (Prod.mk "FK" (CountryCode.mk "Falkland Islands (Malvinas)" "FK" "FLK" 238 "+500" Assignment.OFFICIALLY_ASSIGNED)),
  (Prod.mk "FM" (CountryCode.mk "Micronesia, Federated States of" "FM" "FSM" 583 "+691" Assignment.OFFICIALLY_ASSIGNED)),
  (Prod.mk "FO" (CountryCode.mk "Faroe Islands" "FO" "FRO" 234 "+298" Assignment.OFFICIALLY_ASSIGNED)),
  (Prod.mk "FR" (CountryCode.mk "France" "FR" "FRA" 250 "+33" Assignment.OFFICIALLY_ASSIGNED)),
  (Prod.mk "FX" (CountryCode.mk "France, Metropolitan" "FX" "FXX" (-1) "" Assignment.EXCEPTIONALLY_RESERVED)),
  (Prod.mk "GA" (CountryCode.mk "Gabon" "GA" "GAB" 266 "+241" Assignment.OFFICIALLY_ASSIGNED)),
  (Prod.mk "GB" (CountryCode.mk "United Kingdom" "GB" "GBR" 826 "+44" Assignment.OFFICIALLY_ASSIGNED)),
  (Prod.mk "GD" (CountryCode.mk "Grenada" "GD" "GRD" 308 "+1-473" Assignment.OFFICIALLY_ASSIGNED)),
  (Prod.mk "GE" (CountryCode.mk "Georgia" "GE" "GEO" 268 "+995" Assignment.OFFICIALLY_ASSIGNED)),
  (Prod.mk "GF" (CountryCode.mk "French Guiana" "GF" "GUF" 254 "+594" Assignment.OFFICIALLY_ASSIGNED)),
  (Prod.mk "GG" (CountryCode.mk "Guernsey" "GG" "GGY" 831 "+44-1481" Assignment.OFFICIALLY_ASSIGNED)),
  (Prod.mk "GH" (CountryCode.mk "Ghana" "GH" "GHA" 288 "+233" Assignment.OFFICIALLY_ASSIGNED)),
  (Prod.mk "GI" (CountryCode.mk "Gibraltar" "GI" "GIB" 292 "+350" Assignment.OFFICIALLY_ASSIGNED)),
  (Prod.mk "GL" (CountryCode.mk "Greenland" "GL" "GRL" 304 "+299" Assignment.OFFICIALLY_ASSIGNED)),
  (Prod.mk "GM" (CountryCode.mk "Gambia" "GM" "GMB" 270 "+220" Assignment.OFFICIALLY_ASSIGNED)),
  (Prod.mk "GN" (CountryCode.mk "Guinea" "GN" "GIN" 324 "+224" Assignment.OFFICIALLY_ASSIGNED)),
  (Prod.mk "GP" (CountryCode.mk "Guadeloupe" "GP" "GLP" 312 "+590" Assignment.OFFICIALLY_ASSIGNED)),
  (Prod.mk "GQ" (CountryCode.mk "Equatorial Guinea" "GQ" "GNQ" 226 "+240" Assignment.OFFICIALLY_ASSIGNED)),
  (Prod.mk "GR" (CountryCode.mk "Greece" "GR" "GRC" 300 "+30" Assignment.OFFICIALLY_ASSIGNED)),
  (Prod.mk "GS" (CountryCode.mk "South Georgia and the South Sandwich Islands" "GS" "SGS" 239 "+500" Assignment.OFFICIALLY_ASSIGNED)),
  (Prod.mk "GT" (CountryCode.mk "Guatemala" "GT" "GTM" 320 "+502" Assignment.OFFICIALLY_ASSIGNED)),
  (Prod.mk "GU" (CountryCode.mk "Guam" "GU" "GUM" 316 "+1-671" Assignment.OFFICIALLY_ASSIGNED)),
  (Prod.mk "GW" (CountryCode.mk "Guinea-Bissau" "GW" "GNB" 624 "+245" Assignment.OFFICIALLY_ASSIGNED)),
  (Prod.mk "GY" (CountryCode.mk "Guyana" "GY" "GUY" 328 "+592" Assignment.OFFICIALLY_ASSIGNED)),
  (Prod.mk "HK" (CountryCode.mk "Hong Kong" "HK" "HKG" 344 "+852" Assignment.OFFICIALLY_ASSIGNED)),
  (Prod.mk "HM" (CountryCode.mk "Heard Island and McDonald Islands" "HM" "HMD" 334 "" Assignment.OFFICIALLY_ASSIGNED)),
  (Prod.mk "HN" (CountryCode.mk "Honduras" "HN" "HND" 340 "+504" Assignment.OFFICIALLY_ASSIGNED)),
  (Prod.mk "HR" (CountryCode.mk "Croatia" "HR" "HRV" 191 "+385" Assignment.OFFICIALLY_ASSIGNED)),
  (Prod.mk "HT" (CountryCode.mk "Haiti" "HT" "HTI" 332 "+509" Assignment.OFFICIALLY_ASSIGNED)),
  (Prod.mk "HU" (CountryCode.mk "Hungary" "HU" "HUN" 348 "+36" Assignment.OFFICIALLY_ASSIGNED)),
  (Prod.mk "IC" (CountryCode.mk "Canary Islands" "IC" "" (-1) "" Assignment.EXCEPTIONALLY_RESERVED)),
  (Prod.mk "ID" (CountryCode.mk "Indonesia" "ID" "IDN" 360 "+62" Assignment.OFFICIALLY_ASSIGNED)),
  (Prod.mk "IE" (CountryCode.mk "Ireland" "IE" "IRL" 372 "+353" Assignment.OFFICIALLY_ASSIGNED)),
  (Prod.mk "IL" (CountryCode.mk "Israel" "IL" "ISR" 376 "+972" Assignment.OFFICIALLY_ASSIGNED)),
  (Prod.mk "IM" (CountryCode.mk "Isle of Man" "IM" "IMN" 833 "+44-1624" Assignment.OFFICIALLY_ASSIGNED)),
  (Prod.mk "IN" (CountryCode.mk "India" "IN" "IND" 356 "+91" Assignment.OFFICIALLY_ASSIGNED)),
  (Prod.mk "IO" (CountryCode.mk "British Indian Ocean Territory" "IO" "IOT" 86 "+246" Assignment.OFFICIALLY_ASSIGNED)),
  (Prod.mk "IQ" (CountryCode.mk "Iraq" "IQ" "IRQ" 368 "+964" Assignment.OFFICIALLY_ASSIGNED)),
  (Prod.mk "IR" (CountryCode.mk "Iran, Islamic Republic of" "IR" "IRN" 364 "+98" Assignment.OFFICIALLY_ASSIGNED)),
  (Prod.mk "IS" (CountryCode.mk "Iceland" "IS" "ISL" 352 "+354" Assignment.OFFICIALLY_ASSIGNED)),
  (Prod.mk "IT" (CountryCode.mk "Italy" "IT" "ITA" 380 "+39" Assignment.OFFICIALLY_ASSIGNED)),
  (Prod.mk "JE" (CountryCode.mk "Jersey" "JE" "JEY" 832 "+44-1534" Assignment.OFFICIALLY_ASSIGNED)),
  (Prod.mk "JM" (CountryCode.mk "Jamaica" "JM" "JAM" 388 "+1-876" Assignment.OFFICIALLY_ASSIGNED)),
  (Prod.mk "JO" (CountryCode.mk "Jordan" "JO" "JOR" 400 "+962" Assignment.OFFICIALLY_ASSIGNED)),
  (Prod.mk "JP" (CountryCode.mk "Japan" "JP" "JPN" 392 "+81" Assignment.OFFICIALLY_ASSIGNED)),
  (Prod.mk "KE" (CountryCode.mk "Kenya" "KE" "KEN" 404 "+254" Assignment.OFFICIALLY_ASSIGNED)),
  (Prod.mk "KG" (CountryCode.mk "Kyrgyzstan" "KG" "KGZ" 417 "+996" Assignment.OFFICIALLY_ASSIGNED)),
  (Prod.mk "KH" (CountryCode.mk "Cambodia" "KH" "KHM" 116 "+855" Assignment.OFFICIALLY_ASSIGNED)),
  (Prod.mk "KI" (CountryCode.mk "Kiribati" "KI" "KIR" 296 "+686" Assignment.OFFICIALLY_ASSIGNED)),
  (Prod.mk "KM" (CountryCode.mk "Comoros" "KM" "COM" 174 "+269" Assignment.OFFICIALLY_ASSIGNED)),
  (Prod.mk "KN" (CountryCode.mk "Saint Kitts and Nevis" "KN" "KNA" 659 "+1-869" Assignment.OFFICIALLY_ASSIGNED)),
  (Prod.mk "KP" (CountryCode.mk "Korea, Democratic People\x27s Republic of" "KP" "PRK" 408 "+850" Assignment.OFFICIALLY_ASSIGNED)),
  (Prod.mk "KR" (CountryCode.mk "Korea, Republic of" "KR" "KOR" 410 "+82" Assignment.OFFICIALLY_ASSIGNED)),
  (Prod.mk "KW" (CountryCode.mk "Kuwait" "KW" "KWT" 414 "+965" Assignment.OFFICIALLY_ASSIGNED)),
  (Prod.mk "KY" (CountryCode.mk "Cayman Islands" "KY" "CYM" 136 "+1-345" Assignment.OFFICIALLY_ASSIGNED)),
  (Prod.mk "KZ" (CountryCode.mk "Kazakhstan" "KZ" "KAZ" 398 "+7" Assignment.OFFICIALLY_ASSIGNED)),
  (Prod.mk "LA" (CountryCode.mk "Lao People\x27s Democratic Republic" "LA" "LAO" 418 "+856" Assignment.OFFICIALLY_ASSIGNED)),
  (Prod.mk "LB" (CountryCode.mk "Lebanon" "LB" "LBN" 422 "+961" Assignment.OFFICIALLY_ASSIGNED)),
  (Prod.mk "LC" (CountryCode.mk "Saint Lucia" "LC" "LCA" 662 "+1-758" Assignment.OFFICIALLY_ASSIGNED)),
  (Prod.mk "LI" (CountryCode.mk "Liechtenstein" "LI" "LIE" 438 "+423" Assignment.OFFICIALLY_ASSIGNED)),
  (Prod.mk "LK" (CountryCode.mk "Sri Lanka" "LK" "LKA" 144 "+94" Assignment.OFFICIALLY_ASSIGNED)),
  (Prod.mk "LR" (CountryCode.mk "Liberia" "LR" "LBR" 430 "+231" Assignment.OFFICIALLY_ASSIGNED)),
  (Prod.mk "LS" (CountryCode.mk "Lesotho" "LS" "LSO" 426 "+266" Assignment.OFFICIALLY_ASSIGNED)),
  (Prod.mk "LT" (CountryCode.mk "Lithuania" "LT" "LTU" 440 "+370" Assignment.OFFICIALLY_ASSIGNED)),
  (Prod.mk "LU" (CountryCode.mk "Luxembourg" "LU" "LUX" 442 "+352" Assignment.OFFICIALLY_ASSIGNED)),
  (Prod.mk "LV" (CountryCode.mk "Latvia" "LV" "LVA" 428 "+371" Assignment.OFFICIALLY_ASSIGNED)),
  (Prod.mk "LY" (CountryCode.mk "Libya" "LY" "LBY" 434 "+218" Assignment.OFFICIALLY_ASSIGNED)),
  (Prod.mk "MA" (CountryCode.mk "Morocco" "MA" "MAR" 504 "+212" Assignment.OFFICIALLY_ASSIGNED)),
  (Prod.mk "MC" (CountryCode.mk "Monaco" "MC" "MCO" 492 "+377" Assignment.OFFICIALLY_ASSIGNED)),
  (Prod.mk "MD" (CountryCode.mk "Moldova, Republic of" "MD" "MDA" 498 "+373" Assignment.OFFICIALLY_ASSIGNED)),
  (Prod.mk "ME" (CountryCode.mk "Montenegro" "ME" "MNE" 499 "+382" Assignment.OFFICIALLY_ASSIGNED)),
  (Prod.mk "MF" (CountryCode.mk "Saint Martin (French part)" "MF" "MAF" 663 "+590" Assignment.OFFICIALLY_ASSIGNED)),
  (Prod.mk "MG" (CountryCode.mk "Madagascar" "MG" "MDG" 450 "+261" Assignment.OFFICIALLY_ASSIGNED)),
  (Prod.mk "MH" (CountryCode.mk "Marshall Islands" "MH" "MHL" 584 "+692" Assignment.OFFICIALLY_ASSIGNED)),
  (Prod.mk "MK" (CountryCode.mk "Macedonia, the former Yugoslav Republic of" "MK" "MKD" 807 "+389" Assignment.OFFICIALLY_ASSIGNED)),
  (Prod.mk "ML" (CountryCode.mk "Mali" "ML" "MLI" 466 "+223" Assignment.OFFICIALLY_ASSIGNED)),
  (Prod.mk "MM" (CountryCode.mk "Myanmar" "MM" "MMR" 104 "+95" Assignment.OFFICIALLY_ASSIGNED)),
  (Prod.mk "MN" (CountryCode.mk "Mongolia" "MN" "MNG" 496 "+976" Assignment.OFFICIALLY_ASSIGNED)),
  (Prod.mk "MO" (CountryCode.mk "Macao" "MO" "MAC" 446 "+853" Assignment.OFFICIALLY_ASSIGNED)),
  (Prod.mk "MP" (CountryCode.mk "Northern Mariana Islands" "MP" "MNP" 580 "+1-670" Assignment.OFFICIALLY_ASSIGNED)),
  (Prod.mk "MQ" (CountryCode.mk "Martinique" "MQ" "MTQ" 474 "+596" Assignment.OFFICIALLY_ASSIGNED)),
  (Prod.mk "MR" (CountryCode.mk "Mauritania" "MR" "MRT" 478 "+222" Assignment.OFFICIALLY_ASSIGNED)),
  (Prod.mk "MS" (CountryCode.mk "Montserrat" "MS" "MSR" 500 "+1-664" Assignment.OFFICIALLY_ASSIGNED)),
  (Prod.mk "MT" (CountryCode.mk "Malta" "MT" "MLT" 470 "+356" Assignment.OFFICIALLY_ASSIGNED)),
  (Prod.mk "MU" (CountryCode.mk "Mauritius" "MU" "MUS" 480 "+230" Assignment.OFFICIALLY_ASSIGNED)),
  (Prod.mk "MV" (CountryCode.mk "Maldives" "MV" "MDV" 462 "+960" Assignment.OFFICIALLY_ASSIGNED)),
  (Prod.mk "MW" (CountryCode.mk "Malawi" "MW" "MWI" 454 "+265" Assignment.OFFICIALLY_ASSIGNED)),
  (Prod.mk "MX" (CountryCode.mk "Mexico" "MX" "MEX" 484 "+52" Assignment.OFFICIALLY_ASSIGNED)),
  (Prod.mk "MY" (CountryCode.mk "Malaysia" "MY" "MYS" 458 "+60" Assignment.OFFICIALLY_ASSIGNED)),
  (Prod.mk "MZ" (CountryCode.mk "Mozambique" "MZ" "MOZ" 508 "+258" Assignment.OFFICIALLY_ASSIGNED)),
  (Prod.mk "NA" (CountryCode.mk "Namibia" "NA" "NAM" 516 "+264" Assignment.OFFICIALLY_ASSIGNED)),
  (Prod.mk "NC" (CountryCode.mk "New Caledonia" "NC" "NCL" 540 "+687" Assignment.OFFICIALLY_ASSIGNED)),
  (Prod.mk "NE" (CountryCode.mk "Niger" "NE" "NER" 562 "+227" Assignment.OFFICIALLY_ASSIGNED)),
  (Prod.mk "NF" (CountryCode.mk "Norfolk Island" "NF" "NFK" 574 "+672" Assignment.OFFICIALLY_ASSIGNED)),
  (Prod.mk "NG" (CountryCode.mk "Nigeria" "NG" "NGA" 566 "+234" Assignment.OFFICIALLY_ASSIGNED)),
  (Prod.mk "NI" (CountryCode.mk "Nicaragua" "NI" "NIC" 558 "+505" Assignment.OFFICIALLY_ASSIGNED)),
  (Prod.mk "NL" (CountryCode.mk "Netherlands" "NL" "NLD" 528 "+31" Assignment.OFFICIALLY_ASSIGNED)),
  (Prod.mk "NO" (CountryCode.mk "Norway" "NO" "NOR" 578 "+47" Assignment.OFFICIALLY_ASSIGNED)),
  (Prod.mk "NP" (CountryCode.mk "Nepal" "NP" "NPL" 524 "+977" Assignment.OFFICIALLY_ASSIGNED)),
  (Prod.mk "NR" (CountryCode.mk "Nauru" "NR" "NRU" 520 "+674" Assignment.OFFICIALLY_ASSIGNED)),
  (Prod.mk "NT" (CountryCode.mk "Neutral Zone" "NT" "NTHH" 536 "" Assignment.TRANSITIONALLY_RESERVED)),
  (Prod.mk "NU" (CountryCode.mk "Niue" "NU" "NIU" 570 "+683" Assignment.OFFICIALLY_ASSIGNED)),
  (Prod.mk "NZ" (CountryCode.mk "New Zealand" "NZ" "NZL" 554 "+64" Assignment.OFFICIALLY_ASSIGNED)),
  (Prod.mk "OM" (CountryCode.mk "Oman" "OM" "OMN" 512 "+968" Assignment.OFFICIALLY_ASSIGNED)),
  (Prod.mk "PA" (CountryCode.mk "Panama" "PA" "PAN" 591 "+507" Assignment.OFFICIALLY_ASSIGNED)),
  (Prod.mk "PE" (CountryCode.mk "Peru" "PE" "PER" 604 "+51" Assignment.OFFICIALLY_ASSIGNED)),
  (Prod.mk "PF" (CountryCode.mk "French Polynesia" "PF" "PYF" 258 "+689" Assignment.OFFICIALLY_ASSIGNED)),
  (Prod.mk "PG" (CountryCode.mk "Papua New Guinea" "PG" "PNG" 598 "+675" Assignment.OFFICIALLY_ASSIGNED)),
  (Prod.mk "PH" (CountryCode.mk "Philippines" "PH" "PHL" 608 "+63" Assignment.OFFICIALLY_ASSIGNED)),
  (Prod.mk "PK" (CountryCode.mk "Pakistan" "PK" "PAK" 586 "+92" Assignment.OFFICIALLY_ASSIGNED)),
  (Prod.mk "PL" (CountryCode.mk "Poland" "PL" "POL" 616 "+48" Assignment.OFFICIALLY_ASSIGNED)),
  (Prod.mk "PM" (CountryCode.mk "Saint Pierre and Miquelon" "PM" "SPM" 666 "+508" Assignment.OFFICIALLY_ASSIGNED)),
  (Prod.mk "PN" (CountryCode.mk "Pitcairn" "PN" "PCN" 612 "+64" Assignment.OFFICIALLY_ASSIGNED)),
  (Prod.mk "PR" (CountryCode.mk "Puerto Rico" "PR" "PRI" 630 "+1-787, +1-939" Assignment.OFFICIALLY_ASSIGNED)),
  (Prod.mk "PS" (CountryCode.mk "Palestine, State of" "PS" "PSE" 275 "+970" Assignment.OFFICIALLY_ASSIGNED)),
  (Prod.mk "PT" (CountryCode.mk "Portugal" "PT" "PRT" 620 "+351" Assignment.OFFICIALLY_ASSIGNED)),
  (Prod.mk "PW" (CountryCode.mk "Palau" "PW" "PLW" 585 "+680" Assignment.OFFICIALLY_ASSIGNED)),
  (Prod.mk "PY" (CountryCode.mk "Paraguay" "PY" "PRY" 600 "+595" Assignment.OFFICIALLY_ASSIGNED)),
  (Prod.mk "QA" (CountryCode.mk "Qatar" "QA" "QAT" 634 "+974" Assignment.OFFICIALLY_ASSIGNED)),
  (Prod.mk "RE" (CountryCode.mk "R\u00E9union" "RE" "REU" 638 "+262" Assignment.OFFICIALLY_ASSIGNED)),
  (Prod.mk "RO" (CountryCode.mk "Romania" "RO" "ROU" 642 "+40" Assignment.OFFICIALLY_ASSIGNED)),
  (Prod.mk "RS" (CountryCode.mk "Serbia" "RS" "SRB" 688 "+381" Assignment.OFFICIALLY_ASSIGNED)),
  (Prod.mk "RU" (CountryCode.mk "Russian Federation" "RU" "RUS" 643 "+7" Assignment.OFFICIALLY_ASSIGNED)),
  (Prod.mk "RW" (CountryCode.mk "Rwanda" "RW" "RWA" 646 "+250" Assignment.OFFICIALLY_ASSIGNED)),
  (Prod.mk "SA" (CountryCode.mk "Saudi Arabia" "SA" "SAU" 682 "+966" Assignment.OFFICIALLY_ASSIGNED)),
  (Prod.mk "SB" (CountryCode.mk "Solomon Islands" "SB" "SLB" 90 "+677" Assignment.OFFICIALLY_ASSIGNED)),
  (Prod.mk "SC" (CountryCode.mk "Seychelles" "SC" "SYC" 690 "+248" Assignment.OFFICIALLY_ASSIGNED)),
  (Prod.mk "SD" (CountryCode.mk "Sudan" "SD" "SDN" 729 "+249" Assignment.OFFICIALLY_ASSIGNED)),
  (Prod.mk "SE" (CountryCode.mk "Sweden" "SE" "SWE" 752 "+46" Assignment.OFFICIALLY_ASSIGNED)),
  (Prod.mk "SF" (CountryCode.mk "Finland" "SF" "FIN" 246 "+358" Assignment.TRANSITIONALLY_RESERVED)),
  (Prod.mk "SG" (CountryCode.mk "Singapore" "SG" "SGP" 702 "+65" Assignment.OFFICIALLY_ASSIGNED)),
  (Prod.mk "SH" (CountryCode.mk "Saint Helena, Ascension and Tristan da Cunha" "SH" "SHN" 654 "+290" Assignment.OFFICIALLY_ASSIGNED)),
  (Prod.mk "SI" (CountryCode.mk "Slovenia" "SI" "SVN" 705 "+386" Assignment.OFFICIALLY_ASSIGNED)),
  (Prod.mk "SJ" (CountryCode.mk "Svalbard and Jan Mayen" "SJ" "SJM" 744 "+47" Assignment.OFFICIALLY_ASSIGNED)),
  (Prod.mk "SK" (CountryCode.mk "Slovakia" "SK" "SVK" 703 "+421" Assignment.OFFICIALLY_ASSIGNED)),
  (Prod.mk "SL" (CountryCode.mk "Sierra Leone" "SL" "SLE" 694 "+232" Assignment.OFFICIALLY_ASSIGNED)),
  (Prod.mk "SM" (CountryCode.mk "San Marino" "SM" "SMR" 674 "+378" Assignment.OFFICIALLY_ASSIGNED)),
  (Prod.mk "SN" (CountryCode.mk "Senegal" "SN" "SEN" 686 "+221" Assignment.OFFICIALLY_ASSIGNED)),
  (Prod.mk "SO" (CountryCode.mk "Somalia" "SO" "SOM" 706 "+252" Assignment.OFFICIALLY_ASSIGNED)),
  (Prod.mk "SR" (CountryCode.mk "Suriname" "SR" "SUR" 740 "+597" Assignment.OFFICIALLY_ASSIGNED)),
  (Prod.mk "SS" (CountryCode.mk "South Sudan" "SS" "SSD" 728 "+211" Assignment.OFFICIALLY_ASSIGNED)),
  (Prod.mk "ST" (CountryCode.mk "Sao Tome and Principe" "ST" "STP" 678 "+239" Assignment.OFFICIALLY_ASSIGNED)),
  (Prod.mk "SU" (CountryCode.mk "USSR" "SU" "SUN" (-1) "+7" Assignment.EXCEPTIONALLY_RESERVED)),
  (Prod.mk "SV" (CountryCode.mk "El Salvador" "SV" "SLV" 222 "+503" Assignment.OFFICIALLY_ASSIGNED)),
  (Prod.mk "SX" (CountryCode.mk "Sint Maarten (Dutch part)" "SX" "SXM" 534 "+1-721" Assignment.OFFICIALLY_ASSIGNED)),
  (Prod.mk "SY" (CountryCode.mk "Syrian Arab Republic" "SY" "SYR" 760 "+963" Assignment.OFFICIALLY_ASSIGNED)),
  (Prod.mk "SZ" (CountryCode.mk "Swaziland" "SZ" "SWZ" 748 "+268" Assignment.OFFICIALLY_ASSIGNED)),
  (Prod.mk "TA" (CountryCode.mk "Tristan da Cunha" "TA" "TAA" (-1) "+290-8" Assignment.EXCEPTIONALLY_RESERVED)),
  (Prod.mk "TC" (CountryCode.mk "Turks and Caicos Islands" "TC" "TCA" 796 "+1-649" Assignment.OFFICIALLY_ASSIGNED)),
  (Prod.mk "TD" (CountryCode.mk "Chad" "TD" "TCD" 148 "+235" Assignment.OFFICIALLY_ASSIGNED)),
  (Prod.mk "TF" (CountryCode.mk "French Southern Territories" "TF" "ATF" 260 "" Assignment.OFFICIALLY_ASSIGNED)),
  (Prod.mk "TG" (CountryCode.mk "Togo" "TG" "TGO" 768 "228" Assignment.OFFICIALLY_ASSIGNED)),
  (Prod.mk "TH" (CountryCode.mk "Thailand" "TH" "THA" 764 "+66" Assignment.OFFICIALLY_ASSIGNED)),
  (Prod.mk "TJ" (CountryCode.mk "Tajikistan" "TJ" "TJK" 762 "+992" Assignment.OFFICIALLY_ASSIGNED)),
  (Prod.mk "TK" (CountryCode.mk "Tokelau" "TK" "TKL" 772 "+690" Assignment.OFFICIALLY_ASSIGNED)),
  (Prod.mk "TL" (CountryCode.mk "Timor-Leste" "TL" "TLS" 626 "+670" Assignment.OFFICIALLY_ASSIGNED)),
  (Prod.mk "TM" (CountryCode.mk "Turkmenistan" "TM" "TKM" 795 "+993" Assignment.OFFICIALLY_ASSIGNED)),
  (Prod.mk "TN" (CountryCode.mk "Tunisia" "TN" "TUN" 788 "+216" Assignment.OFFICIALLY_ASSIGNED)),
  (Prod.mk "TO" (CountryCode.mk "Tonga" "TO" "TON" 776 "+676" Assignment.OFFICIALLY_ASSIGNED)),
  (Prod.mk "TP" (CountryCode.mk "East Timor" "TP" "TPTL" 0 "+670" Assignment.TRANSITIONALLY_RESERVED)),
  (Prod.mk "TR" (CountryCode.mk "Turkey" "TR" "TUR" 792 "+90" Assignment.OFFICIALLY_ASSIGNED)),
  (Prod.mk "TT" (CountryCode.mk "Trinidad and Tobago" "TT" "TTO" 780 "+1-868" Assignment.OFFICIALLY_ASSIGNED)),
  (Prod.mk "TV" (CountryCode.mk "Tuvalu" "TV" "TUV" 798 "+688" Assignment.OFFICIALLY_ASSIGNED)),
  (Prod.mk "TW" (CountryCode.mk "Taiwan, Province of China" "TW" "TWN" 158 "+886" Assignment.OFFICIALLY_ASSIGNED)),
  (Prod.mk "TZ" (CountryCode.mk "Tanzania, United Republic of" "TZ" "TZA" 834 "+255" Assignment.OFFICIALLY_ASSIGNED)),
  (Prod.mk "UA" (CountryCode.mk "Ukraine" "UA" "UKR" 804 "+380" Assignment.OFFICIALLY_ASSIGNED)),
  (Prod.mk "UG" (CountryCode.mk "Uganda" "UG" "UGA" 800 "+256" Assignment.OFFICIALLY_ASSIGNED)),
  (Prod.mk "UK" (CountryCode.mk "United Kingdom" "UK" "" (-1) "+44" Assignment.EXCEPTIONALLY_RESERVED)),
  (Prod.mk "UM" (CountryCode.mk "United States Minor Outlying Islands" "UM" "UMI" 581 "+1" Assignment.OFFICIALLY_ASSIGNED)),
  (Prod.mk "US" (CountryCode.mk "United States" "US" "USA" 840 "+1" Assignment.OFFICIALLY_ASSIGNED)),
  (Prod.mk "UY" (CountryCode.mk "Uruguay" "UY" "URY" 858 "+598" Assignment.OFFICIALLY_ASSIGNED)),
  (Prod.mk "UZ" (CountryCode.mk "Uzbekistan" "UZ" "UZB" 860 "+998" Assignment.OFFICIALLY_ASSIGNED)),
  (Prod.mk "VA" (CountryCode.mk "Holy See (Vatican City State)" "VA" "VAT" 336 "+379" Assignment.OFFICIALLY_ASSIGNED)),
  (Prod.mk "VC" (CountryCode.mk "Saint Vincent and the Grenadines" "VC" "VCT" 670 "+1-784" Assignment.OFFICIALLY_ASSIGNED)),
  (Prod.mk "VE" (CountryCode.mk "Venezuela, Bolivarian Republic of" "VE" "VEN" 862 "+58" Assignment.OFFICIALLY_ASSIGNED)),
  (Prod.mk "VG" (CountryCode.mk "Virgin Islands, British" "VG" "VGB" 92 "+1-284" Assignment.OFFICIALLY_ASSIGNED)),
  (Prod.mk "VI" (CountryCode.mk "Virgin Islands, U.S." "VI" "VIR" 850 "+1-340" Assignment.OFFICIALLY_ASSIGNED)),
  (Prod.mk "VN" (CountryCode.mk "Viet Nam" "VN" "VNM" 704 "+84" Assignment.OFFICIALLY_ASSIGNED)),
  (Prod.mk "VU" (CountryCode.mk "Vanuatu" "VU" "VUT" 548 "+678" Assignment.OFFICIALLY_ASSIGNED)),
  (Prod.mk "WF" (CountryCode.mk "Wallis and Futuna" "WF" "WLF" 876 "+681" Assignment.OFFICIALLY_ASSIGNED)),
  (Prod.mk "WS" (CountryCode.mk "Samoa" "WS" "WSM" 882 "+685" Assignment.OFFICIALLY_ASSIGNED)),
  (Prod.mk "XK" (CountryCode.mk "Kosovo, Republic of" "XK" "XXK" (-1) "+383" Assignment.USER_ASSIGNED)),
  (Prod.mk "YE" (CountryCode.mk "Yemen" "YE" "YEM" 887 "+967" Assignment.OFFICIALLY_ASSIGNED)),
  (Prod.mk "YT" (CountryCode.mk "Mayotte" "YT" "MYT" 175 "+262" Assignment.OFFICIALLY_ASSIGNED)),
  (Prod.mk "YU" (CountryCode.mk "Yugoslavia" "YU" "YUCS" 890 "+38" Assignment.TRANSITIONALLY_RESERVED)),
  (Prod.mk "ZA" (CountryCode.mk "South Africa" "ZA" "ZAF" 710 "+27" Assignment.OFFICIALLY_ASSIGNED)),
  (Prod.mk "ZM" (CountryCode.mk "Zambia" "ZM" "ZMB" 894 "+260" Assignment.OFFICIALLY_ASSIGNED)),
  (Prod.mk "ZR" (CountryCode.mk "Zaire" "ZR" "ZRCD" 0 "+243" Assignment.TRANSITIONALLY_RESERVED)),
  (Prod.mk "ZW" (CountryCode.mk "Zimbabwe" "ZW" "ZWE" 716 "+263" Assignment.OFFICIALLY_ASSIGNED))
]

/-- Embeds the record set of the table, in source order. -/
def records : List CountryCode := by_alpha2.map Prod.snd

/-- Embeds a Go map read `m[k]`: value of the first matching entry, or the
zero value when the key is absent. -/
def mapGet (m : List (String × CountryCode)) (k : String) : CountryCode :=
  (m.lookup k).getD zeroCC

/-- Embeds the `by_name` map after `init`: `by_name[cc.Name] = cc` for each
record, later writes shadowing earlier ones. -/
def by_name : List (String × CountryCode) :=
  records.foldl (fun m cc => (cc.Name, cc) :: m) []

/-- Embeds the `by_alpha3` map after `init`: `by_alpha3[cc.Alpha3] = cc` for
each record with a non-empty `Alpha3`. -/
def by_alpha3 : List (String × CountryCode) :=
  records.foldl (fun m cc => if cc.Alpha3 ≠ "" then (cc.Alpha3, cc) :: m else m) []

/-- Embeds the `by_numeric` map after `init`: `by_numeric[cc.Numeric] = cc`
for each record.  The source populates this map but defines no accessor
that reads it. -/
def by_numeric : List (Int × CountryCode) :=
  records.foldl (fun m cc => (cc.Numeric, cc) :: m) []

/-- Embeds `patricia.Item`, Go's `interface{}` payload type: it can hold a
`CountryCode` or any other value. -/
inductive Item where
  | cc (c : CountryCode)
  | other (n : Nat)
  deriving DecidableEq

/-- Embeds the type assertion `item.(CountryCode)`; `none` models the panic
raised when the item is not a `CountryCode`. -/
def assertCC : Item → Option CountryCode
  | .cc c => some c
  | .other _ => none

/-- Embeds `patricia.Trie.Insert`, which does not replace an existing item:
when the key is already present the trie is unchanged. -/
def trieInsert (t : List (String × Item)) (k : String) (v : Item) : List (String × Item) :=
  if t.any (fun e => e.1 == k) then t else t ++ [(k, v)]

/-- Embeds `name_trie` after `init`: each record is inserted under its
lowercased name. -/
def name_trie : List (String × Item) :=
  records.foldl (fun t cc => trieInsert t (strLower cc.Name) (.cc cc)) []

/-- Embeds the visitor loop of `FindByName`: each visited item is appended
after the type assertion; a failed assertion (`none`) models the panic. -/
def collectCC : List (String × Item) → Option (List CountryCode)
  | [] => some []
  | e :: rest =>
    match assertCC e.2 with
    | some c => (collectCC rest).map (fun l => c :: l)
    | none => none

/-- Embeds `GetByAlpha2`: map read, found flag `code.Alpha2 != ""`. -/
def GetByAlpha2 (a2 : String) : CountryCode × Bool :=
  let code := mapGet by_alpha2 a2
  (code, code.Alpha2 != "")

/-- Embeds `GetByAlpha3`: map read, found flag `code.Alpha2 != ""`. -/
def GetByAlpha3 (a3 : String) : CountryCode × Bool :=
  let code := mapGet by_alpha3 a3
  (code, code.Alpha2 != "")

/-- Embeds `GetByName`: map read, found flag `code.Alpha2 != ""`. -/
def GetByName (name : String) : CountryCode × Bool :=
  let code := mapGet by_name name
  (code, code.Alpha2 != "")

/-- Embeds `FindByName`: lowercase the query, visit the subtree of entries
whose key starts with it, collect the items through the type assertion. -/
def FindByName (q : String) : Option (List CountryCode) :=
  collectCC (name_trie.filter (fun e => strStartsWith e.1 (strLower q)))


/-- Decides whether every character of a string is an uppercase ASCII
letter. -/
def isUpperAscii (s : String) : Bool := s.data.all (fun c => 65 ≤ c.toNat && c.toNat ≤ 90)

/-- Precomputed value of `name_trie`: one entry per distinct lowercased
name, first insertion winning, in insertion order; proved equal to
`name_trie` in `name_trie_val` below and used to keep later evaluations
cheap. -/
def trieLit : List (String × Item) := [
  (Prod.mk "ascension island" (Item.cc (CountryCode.mk "Ascension Island" "AC" "ASC" (-1) "+247" Assignment.EXCEPTIONALLY_RESERVED))),
  (Prod.mk "andorra" (Item.cc (CountryCode.mk "Andorra" "AD" "AND" 20 "+376" Assignment.OFFICIALLY_ASSIGNED))),
  (Prod.mk "united arab emirates" (Item.cc (CountryCode.mk "United Arab Emirates" "AE" "ARE" 784 "+971" Assignment.OFFICIALLY_ASSIGNED))),
  (Prod.mk "afghanistan" (Item.cc (CountryCode.mk "Afghanistan" "AF" "AFG" 4 "+93" Assignment.OFFICIALLY_ASSIGNED))),
  (Prod.mk "antigua and barbuda" (Item.cc (CountryCode.mk "Antigua and Barbuda" "AG" "ATG" 28 "+1-268" Assignment.OFFICIALLY_ASSIGNED))),
  (Prod.mk "anguilla" (Item.cc (CountryCode.mk "Anguilla" "AI" "AIA" 660 "+1-264" Assignment.OFFICIALLY_ASSIGNED))),
  (Prod.mk "albania" (Item.cc (CountryCode.mk "Albania" "AL" "ALB" 8 "+355" Assignment.OFFICIALLY_ASSIGNED))),
  (Prod.mk "armenia" (Item.cc (CountryCode.mk "Armenia" "AM" "ARM" 51 "+374" Assignment.OFFICIALLY_ASSIGNED))),
  (Prod.mk "netherlands antilles" (Item.cc (CountryCode.mk "Netherlands Antilles" "AN" "ANHH" 530 "+599" Assignment.TRANSITIONALLY_RESERVED))),
  (Prod.mk "angola" (Item.cc (CountryCode.mk "Angola" "AO" "AGO" 24 "+244" Assignment.OFFICIALLY_ASSIGNED))),
  (Prod.mk "antarctica" (Item.cc (CountryCode.mk "Antarctica" "AQ" "ATA" 10 "+672" Assignment.OFFICIALLY_ASSIGNED))),
  (Prod.mk "argentina" (Item.cc (CountryCode.mk "Argentina" "AR" "ARG" 32 "+54" Assignment.OFFICIALLY_ASSIGNED))),
  (Prod.mk "american samoa" (Item.cc (CountryCode.mk "American Samoa" "AS" "ASM" 16 "+1-684" Assignment.OFFICIALLY_ASSIGNED))),
  (Prod.mk "austria" (Item.cc (CountryCode.mk "Austria" "AT" "AUT" 40 "+43" Assignment.OFFICIALLY_ASSIGNED))),
  (Prod.mk "australia" (Item.cc (CountryCode.mk "Australia" "AU" "AUS" 36 "+61" Assignment.OFFICIALLY_ASSIGNED))),
  (Prod.mk "aruba" (Item.cc (CountryCode.mk "Aruba" "AW" "ABW" 533 "+297" Assignment.OFFICIALLY_ASSIGNED))),
  (Prod.mk "\u00E5land islands" (Item.cc (CountryCode.mk "\u212Bland Islands" "AX" "ALA" 248 "" Assignment.OFFICIALLY_ASSIGNED))),
  (Prod.mk "azerbaijan" (Item.cc (CountryCode.mk "Azerbaijan" "AZ" "AZE" 31 "+994" Assignment.OFFICIALLY_ASSIGNED))),
  (Prod.mk "bosnia and herzegovina" (Item.cc (CountryCode.mk "Bosnia and Herzegovina" "BA" "BIH" 70 "+387" Assignment.OFFICIALLY_ASSIGNED))),
  (Prod.mk "barbados" (Item.cc (CountryCode.mk "Barbados" "BB" "BRB" 52 "+1-246" Assignment.OFFICIALLY_ASSIGNED))),
  (Prod.mk "bangladesh" (Item.cc (CountryCode.mk "Bangladesh" "BD" "BGD" 50 "+880" Assignment.OFFICIALLY_ASSIGNED))),
  (Prod.mk "belgium" (Item.cc (CountryCode.mk "Belgium" "BE" "BEL" 56 "+32" Assignment.OFFICIALLY_ASSIGNED))),
  (Prod.mk "burkina faso" (Item.cc (CountryCode.mk "Burkina Faso" "BF" "BFA" 854 "+226" Assignment.OFFICIALLY_ASSIGNED))),
  (Prod.mk "bulgaria" (Item.cc (CountryCode.mk "Bulgaria" "BG" "BGR" 100 "+359" Assignment.OFFICIALLY_ASSIGNED))),
  (Prod.mk "bahrain" (Item.cc (CountryCode.mk "Bahrain" "BH" "BHR" 48 "+973" Assignment.OFFICIALLY_ASSIGNED))),
  (Prod.mk "burundi" (Item.cc (CountryCode.mk "Burundi" "BI" "BDI" 108 "+257" Assignment.OFFICIALLY_ASSIGNED))),
  (Prod.mk "benin" (Item.cc (CountryCode.mk "Benin" "BJ" "BEN" 204 "+229" Assignment.OFFICIALLY_ASSIGNED))),
  (Prod.mk "saint barth\u00E9lemy" (Item.cc (CountryCode.mk "Saint Barth\u00E9lemy" "BL" "BLM" 652 "+590" Assignment.OFFICIALLY_ASSIGNED))),
  (Prod.mk "bermuda" (Item.cc (CountryCode.mk "Bermuda" "BM" "BMU" 60 "+1-441" Assignment.OFFICIALLY_ASSIGNED))),
  (Prod.mk "brunei darussalam" (Item.cc (CountryCode.mk "Brunei Darussalam" "BN" "BRN" 96 "+673" Assignment.OFFICIALLY_ASSIGNED))),
  (Prod.mk "bolivia, plurinational state of" (Item.cc (CountryCode.mk "Bolivia, Plurinational State of" "BO" "BOL" 68 "+591" Assignment.OFFICIALLY_ASSIGNED))),
  (Prod.mk "bonaire, sint eustatius and saba" (Item.cc (CountryCode.mk "Bonaire, Sint Eustatius and Saba" "BQ" "BES" 535 "+599" Assignment.OFFICIALLY_ASSIGNED))),
  (Prod.mk "brazil" (Item.cc (CountryCode.mk "Brazil" "BR" "BRA" 76 "+55" Assignment.OFFICIALLY_ASSIGNED))),
  (Prod.mk "bahamas" (Item.cc (CountryCode.mk "Bahamas" "BS" "BHS" 44 "+1-242" Assignment.OFFICIALLY_ASSIGNED))),
  (Prod.mk "bhutan" (Item.cc (CountryCode.mk "Bhutan" "BT" "BTN" 64 "+975" Assignment.OFFICIALLY_ASSIGNED))),
  (Prod.mk "burma" (Item.cc (CountryCode.mk "Burma" "BU" "BUMM" 104 "+95" Assignment.TRANSITIONALLY_RESERVED))),
  (Prod.mk "bouvet island" (Item.cc (CountryCode.mk "Bouvet Island" "BV" "BVT" 74 "" Assignment.OFFICIALLY_ASSIGNED))),
  (Prod.mk "botswana" (Item.cc (CountryCode.mk "Botswana" "BW" "BWA" 72 "+267" Assignment.OFFICIALLY_ASSIGNED))),
  (Prod.mk "belarus" (Item.cc (CountryCode.mk "Belarus" "BY" "BLR" 112 "+375" Assignment.OFFICIALLY_ASSIGNED))),
  (Prod.mk "belize" (Item.cc (CountryCode.mk "Belize" "BZ" "BLZ" 84 "+501" Assignment.OFFICIALLY_ASSIGNED))),
  (Prod.mk "canada" (Item.cc (CountryCode.mk "Canada" "CA" "CAN" 124 "+1" Assignment.OFFICIALLY_ASSIGNED))),
  (Prod.mk "cocos (keeling) islands" (Item.cc (CountryCode.mk "Cocos (Keeling) Islands" "CC" "CCK" 166 "+61" Assignment.OFFICIALLY_ASSIGNED))),
  (Prod.mk "congo, the democratic republic of the" (Item.cc (CountryCode.mk "Congo, the Democratic Republic of the" "CD" "COD" 180 "+243" Assignment.OFFICIALLY_ASSIGNED))),
  (Prod.mk "central african republic" (Item.cc (CountryCode.mk "Central African Republic" "CF" "CAF" 140 "+236" Assignment.OFFICIALLY_ASSIGNED))),
  (Prod.mk "congo" (Item.cc (CountryCode.mk "Congo" "CG" "COG" 178 "+242" Assignment.OFFICIALLY_ASSIGNED))),
  (Prod.mk "switzerland" (Item.cc (CountryCode.mk "Switzerland" "CH" "CHE" 756 "+41" Assignment.OFFICIALLY_ASSIGNED))),
  (Prod.mk "c\u00F4te d\x27ivoire" (Item.cc (CountryCode.mk "C\u00F4te d\x27Ivoire" "CI" "CIV" 384 "+225" Assignment.OFFICIALLY_ASSIGNED))),
  (Prod.mk "cook islands" (Item.cc (CountryCode.mk "Cook Islands" "CK" "COK" 184 "+682" Assignment.OFFICIALLY_ASSIGNED))),
  (Prod.mk "chile" (Item.cc (CountryCode.mk "Chile" "CL" "CHL" 152 "+56" Assignment.OFFICIALLY_ASSIGNED))),
  (Prod.mk "cameroon" (Item.cc (CountryCode.mk "Cameroon" "CM" "CMR" 120 "+237" Assignment.OFFICIALLY_ASSIGNED))),
  (Prod.mk "china" (Item.cc (CountryCode.mk "China" "CN" "CHN" 156 "+86" Assignment.OFFICIALLY_ASSIGNED))),
  (Prod.mk "colombia" (Item.cc (CountryCode.mk "Colombia" "CO" "COL" 170 "+57" Assignment.OFFICIALLY_ASSIGNED))),
  (Prod.mk "clipperton island" (Item.cc (CountryCode.mk "Clipperton Island" "CP" "CPT" (-1) "" Assignment.EXCEPTIONALLY_RESERVED))),
  (Prod.mk "costa rica" (Item.cc (CountryCode.mk "Costa Rica" "CR" "CRI" 188 "+506" Assignment.OFFICIALLY_ASSIGNED))),
  (Prod.mk "serbia and montenegro" (Item.cc (CountryCode.mk "Serbia and Montenegro" "CS" "CSXX" 891 "+381" Assignment.TRANSITIONALLY_RESERVED))),
  (Prod.mk "cuba" (Item.cc (CountryCode.mk "Cuba" "CU" "CUB" 192 "+53" Assignment.OFFICIALLY_ASSIGNED))),
  (Prod.mk "cape verde" (Item.cc (CountryCode.mk "Cape Verde" "CV" "CPV" 132 "+238" Assignment.OFFICIALLY_ASSIGNED))),
  (Prod.mk "cura\u00E7ao" (Item.cc (CountryCode.mk "Cura\u00E7ao" "CW" "CUW" 531 "+599" Assignment.OFFICIALLY_ASSIGNED))),
  (Prod.mk "christmas island" (Item.cc (CountryCode.mk "Christmas Island" "CX" "CXR" 162 "+61" Assignment.OFFICIALLY_ASSIGNED))),
  (Prod.mk "cyprus" (Item.cc (CountryCode.mk "Cyprus" "CY" "CYP" 196 "+357" Assignment.OFFICIALLY_ASSIGNED))),
  (Prod.mk "czech republic" (Item.cc (CountryCode.mk "Czech Republic" "CZ" "CZE" 203 "+420" Assignment.OFFICIALLY_ASSIGNED))),
  (Prod.mk "germany" (Item.cc (CountryCode.mk "Germany" "DE" "DEU" 276 "+49" Assignment.OFFICIALLY_ASSIGNED))),
  (Prod.mk "diego garcia" (Item.cc (CountryCode.mk "Diego Garcia" "DG" "DGA" (-1) "+246" Assignment.EXCEPTIONALLY_RESERVED))),
  (Prod.mk "djibouti" (Item.cc (CountryCode.mk "Djibouti" "DJ" "DJI" 262 "+253" Assignment.OFFICIALLY_ASSIGNED))),
  (Prod.mk "denmark" (Item.cc (CountryCode.mk "Denmark" "DK" "DNK" 208 "+45" Assignment.OFFICIALLY_ASSIGNED))),
  (Prod.mk "dominica" (Item.cc (CountryCode.mk "Dominica" "DM" "DMA" 212 "+1-767" Assignment.OFFICIALLY_ASSIGNED))),
  (Prod.mk "dominican republic" (Item.cc (CountryCode.mk "Dominican Republic" "DO" "DOM" 214 "+1-809, +1-829, +1-849" Assignment.OFFICIALLY_ASSIGNED))),
  (Prod.mk "algeria" (Item.cc (CountryCode.mk "Algeria" "DZ" "DZA" 12 "+213" Assignment.OFFICIALLY_ASSIGNED))),
  (Prod.mk "ceuta, melilla" (Item.cc (CountryCode.mk "Ceuta, Melilla" "EA" "" (-1) "" Assignment.EXCEPTIONALLY_RESERVED))),
  (Prod.mk "ecuador" (Item.cc (CountryCode.mk "Ecuador" "EC" "ECU" 218 "+593" Assignment.OFFICIALLY_ASSIGNED))),
  (Prod.mk "estonia" (Item.cc (CountryCode.mk "Estonia" "EE" "EST" 233 "+372" Assignment.OFFICIALLY_ASSIGNED))),
  (Prod.mk "egypt" (Item.cc (CountryCode.mk "Egypt" "EG" "EGY" 818 "+20" Assignment.OFFICIALLY_ASSIGNED))),
  (Prod.mk "western sahara" (Item.cc (CountryCode.mk "Western Sahara" "EH" "ESH" 732 "+212" Assignment.OFFICIALLY_ASSIGNED))),
  (Prod.mk "eritrea" (Item.cc (CountryCode.mk "Eritrea" "ER" "ERI" 232 "+291" Assignment.OFFICIALLY_ASSIGNED))),
  (Prod.mk "spain" (Item.cc (CountryCode.mk "Spain" "ES" "ESP" 724 "+34" Assignment.OFFICIALLY_ASSIGNED))),
  (Prod.mk "ethiopia" (Item.cc (CountryCode.mk "Ethiopia" "ET" "ETH" 231 "+251" Assignment.OFFICIALLY_ASSIGNED))),
  (Prod.mk "european union" (Item.cc (CountryCode.mk "European Union" "EU" "" (-1) "" Assignment.EXCEPTIONALLY_RESERVED))),
  (Prod.mk "finland" (Item.cc (CountryCode.mk "Finland" "FI" "FIN" 246 "+358" Assignment.OFFICIALLY_ASSIGNED))),
  (Prod.mk "fiji" (Item.cc (CountryCode.mk "Fiji" "FJ" "FJI" 242 "+679" Assignment.OFFICIALLY_ASSIGNED))),
  (Prod.mk "falkland islands (malvinas)" (Item.cc (CountryCode.mk "Falkland Islands (Malvinas)" "FK" "FLK" 238 "+500" Assignment.OFFICIALLY_ASSIGNED))),
  (Prod.mk "micronesia, federated states of" (Item.cc (CountryCode.mk "Micronesia, Federated States of" "FM" "FSM" 583 "+691" Assignment.OFFICIALLY_ASSIGNED))),
  (Prod.mk "faroe islands" (Item.cc (CountryCode.mk "Faroe Islands" "FO" "FRO" 234 "+298" Assignment.OFFICIALLY_ASSIGNED))),
  (Prod.mk "france" (Item.cc (CountryCode.mk "France" "FR" "FRA" 250 "+33" Assignment.OFFICIALLY_ASSIGNED))),
  (Prod.mk "france, metropolitan" (Item.cc (CountryCode.mk "France, Metropolitan" "FX" "FXX" (-1) "" Assignment.EXCEPTIONALLY_RESERVED))),
  (Prod.mk "gabon" (Item.cc (CountryCode.mk "Gabon" "GA" "GAB" 266 "+241" Assignment.OFFICIALLY_ASSIGNED))),
  (Prod.mk "united kingdom" (Item.cc (CountryCode.mk "United Kingdom" "GB" "GBR" 826 "+44" Assignment.OFFICIALLY_ASSIGNED))),
  (Prod.mk "grenada" (Item.cc (CountryCode.mk "Grenada" "GD" "GRD" 308 "+1-473" Assignment.OFFICIALLY_ASSIGNED))),
  (Prod.mk "georgia" (Item.cc (CountryCode.mk "Georgia" "GE" "GEO" 268 "+995" Assignment.OFFICIALLY_ASSIGNED))),
  (Prod.mk "french guiana" (Item.cc (CountryCode.mk "French Guiana" "GF" "GUF" 254 "+594" Assignment.OFFICIALLY_ASSIGNED))),
  (Prod.mk "guernsey" (Item.cc (CountryCode.mk "Guernsey" "GG" "GGY" 831 "+44-1481" Assignment.OFFICIALLY_ASSIGNED))),
  (Prod.mk "ghana" (Item.cc (CountryCode.mk "Ghana" "GH" "GHA" 288 "+233" Assignment.OFFICIALLY_ASSIGNED))),
  (Prod.mk "gibraltar" (Item.cc (CountryCode.mk "Gibraltar" "GI" "GIB" 292 "+350" Assignment.OFFICIALLY_ASSIGNED))),
  (Prod.mk "greenland" (Item.cc (CountryCode.mk "Greenland" "GL" "GRL" 304 "+299" Assignment.OFFICIALLY_ASSIGNED))),
  (Prod.mk "gambia" (Item.cc (CountryCode.mk "Gambia" "GM" "GMB" 270 "+220" Assignment.OFFICIALLY_ASSIGNED))),
  (Prod.mk "guinea" (Item.cc (CountryCode.mk "Guinea" "GN" "GIN" 324 "+224" Assignment.OFFICIALLY_ASSIGNED))),
  (Prod.mk "guadeloupe" (Item.cc (CountryCode.mk "Guadeloupe" "GP" "GLP" 312 "+590" Assignment.OFFICIALLY_ASSIGNED))),
  (Prod.mk "equatorial guinea" (Item.cc (CountryCode.mk "Equatorial Guinea" "GQ" "GNQ" 226 "+240" Assignment.OFFICIALLY_ASSIGNED))),
  (Prod.mk "greece" (Item.cc (CountryCode.mk "Greece" "GR" "GRC" 300 "+30" Assignment.OFFICIALLY_ASSIGNED))),
  (Prod.mk "south georgia and the south sandwich islands" (Item.cc (CountryCode.mk "South Georgia and the South Sandwich Islands" "GS" "SGS" 239 "+500" Assignment.OFFICIALLY_ASSIGNED))),
  (Prod.mk "guatemala" (Item.cc (CountryCode.mk "Guatemala" "GT" "GTM" 320 "+502" Assignment.OFFICIALLY_ASSIGNED))),
  (Prod.mk "guam" (Item.cc (CountryCode.mk "Guam" "GU" "GUM" 316 "+1-671" Assignment.OFFICIALLY_ASSIGNED))),
  (Prod.mk "guinea-bissau" (Item.cc (CountryCode.mk "Guinea-Bissau" "GW" "GNB" 624 "+245" Assignment.OFFICIALLY_ASSIGNED))),
  (Prod.mk "guyana" (Item.cc (CountryCode.mk "Guyana" "GY" "GUY" 328 "+592" Assignment.OFFICIALLY_ASSIGNED))),
  (Prod.mk "hong kong" (Item.cc (CountryCode.mk "Hong Kong" "HK" "HKG" 344 "+852" Assignment.OFFICIALLY_ASSIGNED))),
  (Prod.mk "heard island and mcdonald islands" (Item.cc (CountryCode.mk "Heard Island and McDonald Islands" "HM" "HMD" 334 "" Assignment.OFFICIALLY_ASSIGNED))),
  (Prod.mk "honduras" (Item.cc (CountryCode.mk "Honduras" "HN" "HND" 340 "+504" Assignment.OFFICIALLY_ASSIGNED))),
  (Prod.mk "croatia" (Item.cc (CountryCode.mk "Croatia" "HR" "HRV" 191 "+385" Assignment.OFFICIALLY_ASSIGNED))),
  (Prod.mk "haiti" (Item.cc (CountryCode.mk "Haiti" "HT" "HTI" 332 "+509" Assignment.OFFICIALLY_ASSIGNED))),
  (Prod.mk "hungary" (Item.cc (CountryCode.mk "Hungary" "HU" "HUN" 348 "+36" Assignment.OFFICIALLY_ASSIGNED))),
  (Prod.mk "canary islands" (Item.cc (CountryCode.mk "Canary Islands" "IC" "" (-1) "" Assignment.EXCEPTIONALLY_RESERVED))),
  (Prod.mk "indonesia" (Item.cc (CountryCode.mk "Indonesia" "ID" "IDN" 360 "+62" Assignment.OFFICIALLY_ASSIGNED))),
  (Prod.mk "ireland" (Item.cc (CountryCode.mk "Ireland" "IE" "IRL" 372 "+353" Assignment.OFFICIALLY_ASSIGNED))),
  (Prod.mk "israel" (Item.cc (CountryCode.mk "Israel" "IL" "ISR" 376 "+972" Assignment.OFFICIALLY_ASSIGNED))),
  (Prod.mk "isle of man" (Item.cc (CountryCode.mk "Isle of Man" "IM" "IMN" 833 "+44-1624" Assignment.OFFICIALLY_ASSIGNED))),
  (Prod.mk "india" (Item.cc (CountryCode.mk "India" "IN" "IND" 356 "+91" Assignment.OFFICIALLY_ASSIGNED))),
  (Prod.mk "british indian ocean territory" (Item.cc (CountryCode.mk "British Indian Ocean Territory" "IO" "IOT" 86 "+246" Assignment.OFFICIALLY_ASSIGNED))),
  (Prod.mk "iraq" (Item.cc (CountryCode.mk "Iraq" "IQ" "IRQ" 368 "+964" Assignment.OFFICIALLY_ASSIGNED))),
  (Prod.mk "iran, islamic republic of" (Item.cc (CountryCode.mk "Iran, Islamic Republic of" "IR" "IRN" 364 "+98" Assignment.OFFICIALLY_ASSIGNED))),
  (Prod.mk "iceland" (Item.cc (CountryCode.mk "Iceland" "IS" "ISL" 352 "+354" Assignment.OFFICIALLY_ASSIGNED))),
  (Prod.mk "italy" (Item.cc (CountryCode.mk "Italy" "IT" "ITA" 380 "+39" Assignment.OFFICIALLY_ASSIGNED))),
  (Prod.mk "jersey" (Item.cc (CountryCode.mk "Jersey" "JE" "JEY" 832 "+44-1534" Assignment.OFFICIALLY_ASSIGNED))),
  (Prod.mk "jamaica" (Item.cc (CountryCode.mk "Jamaica" "JM" "JAM" 388 "+1-876" Assignment.OFFICIALLY_ASSIGNED))),
  (Prod.mk "jordan" (Item.cc (CountryCode.mk "Jordan" "JO" "JOR" 400 "+962" Assignment.OFFICIALLY_ASSIGNED))),
  (Prod.mk "japan" (Item.cc (CountryCode.mk "Japan" "JP" "JPN" 392 "+81" Assignment.OFFICIALLY_ASSIGNED))),
  (Prod.mk "kenya" (Item.cc (CountryCode.mk "Kenya" "KE" "KEN" 404 "+254" Assignment.OFFICIALLY_ASSIGNED))),
  (Prod.mk "kyrgyzstan" (Item.cc (CountryCode.mk "Kyrgyzstan" "KG" "KGZ" 417 "+996" Assignment.OFFICIALLY_ASSIGNED))),
  (Prod.mk "cambodia" (Item.cc (CountryCode.mk "Cambodia" "KH" "KHM" 116 "+855" Assignment.OFFICIALLY_ASSIGNED))),
  (Prod.mk "kiribati" (Item.cc (CountryCode.mk "Kiribati" "KI" "KIR" 296 "+686" Assignment.OFFICIALLY_ASSIGNED))),
  (Prod.mk "comoros" (Item.cc (CountryCode.mk "Comoros" "KM" "COM" 174 "+269" Assignment.OFFICIALLY_ASSIGNED))),
  (Prod.mk "saint kitts and nevis" (Item.cc (CountryCode.mk "Saint Kitts and Nevis" "KN" "KNA" 659 "+1-869" Assignment.OFFICIALLY_ASSIGNED))),
  (Prod.mk "korea, democratic people\x27s republic of" (Item.cc (CountryCode.mk "Korea, Democratic People\x27s Republic of" "KP" "PRK" 408 "+850" Assignment.OFFICIALLY_ASSIGNED))),
  (Prod.mk "korea, republic of" (Item.cc (CountryCode.mk "Korea, Republic of" "KR" "KOR" 410 "+82" Assignment.OFFICIALLY_ASSIGNED))),
  (Prod.mk "kuwait" (Item.cc (CountryCode.mk "Kuwait" "KW" "KWT" 414 "+965" Assignment.OFFICIALLY_ASSIGNED))),
  (Prod.mk "cayman islands" (Item.cc (CountryCode.mk "Cayman Islands" "KY" "CYM" 136 "+1-345" Assignment.OFFICIALLY_ASSIGNED))),
  (Prod.mk "kazakhstan" (Item.cc (CountryCode.mk "Kazakhstan" "KZ" "KAZ" 398 "+7" Assignment.OFFICIALLY_ASSIGNED))),
  (Prod.mk "lao people\x27s democratic republic" (Item.cc (CountryCode.mk "Lao People\x27s Democratic Republic" "LA" "LAO" 418 "+856" Assignment.OFFICIALLY_ASSIGNED))),
  (Prod.mk "lebanon" (Item.cc (CountryCode.mk "Lebanon" "LB" "LBN" 422 "+961" Assignment.OFFICIALLY_ASSIGNED))),
  (Prod.mk "saint lucia" (Item.cc (CountryCode.mk "Saint Lucia" "LC" "LCA" 662 "+1-758" Assignment.OFFICIALLY_ASSIGNED))),
  (Prod.mk "liechtenstein" (Item.cc (CountryCode.mk "Liechtenstein" "LI" "LIE" 438 "+423" Assignment.OFFICIALLY_ASSIGNED))),
  (Prod.mk "sri lanka" (Item.cc (CountryCode.mk "Sri Lanka" "LK" "LKA" 144 "+94" Assignment.OFFICIALLY_ASSIGNED))),
  (Prod.mk "liberia" (Item.cc (CountryCode.mk "Liberia" "LR" "LBR" 430 "+231" Assignment.OFFICIALLY_ASSIGNED))),
  (Prod.mk "lesotho" (Item.cc (CountryCode.mk "Lesotho" "LS" "LSO" 426 "+266" Assignment.OFFICIALLY_ASSIGNED))),
  (Prod.mk "lithuania" (Item.cc (CountryCode.mk "Lithuania" "LT" "LTU" 440 "+370" Assignment.OFFICIALLY_ASSIGNED))),
  (Prod.mk "luxembourg" (Item.cc (CountryCode.mk "Luxembourg" "LU" "LUX" 442 "+352" Assignment.OFFICIALLY_ASSIGNED))),
  (Prod.mk "latvia" (Item.cc (CountryCode.mk "Latvia" "LV" "LVA" 428 "+371" Assignment.OFFICIALLY_ASSIGNED))),
  (Prod.mk "libya" (Item.cc (CountryCode.mk "Libya" "LY" "LBY" 434 "+218" Assignment.OFFICIALLY_ASSIGNED))),
  (Prod.mk "morocco" (Item.cc (CountryCode.mk "Morocco" "MA" "MAR" 504 "+212" Assignment.OFFICIALLY_ASSIGNED))),
  (Prod.mk "monaco" (Item.cc (CountryCode.mk "Monaco" "MC" "MCO" 492 "+377" Assignment.OFFICIALLY_ASSIGNED))),
  (Prod.mk "moldova, republic of" (Item.cc (CountryCode.mk "Moldova, Republic of" "MD" "MDA" 498 "+373" Assignment.OFFICIALLY_ASSIGNED))),
  (Prod.mk "montenegro" (Item.cc (CountryCode.mk "Montenegro" "ME" "MNE" 499 "+382" Assignment.OFFICIALLY_ASSIGNED))),
  (Prod.mk "saint martin (french part)" (Item.cc (CountryCode.mk "Saint Martin (French part)" "MF" "MAF" 663 "+590" Assignment.OFFICIALLY_ASSIGNED))),
  (Prod.mk "madagascar" (Item.cc (CountryCode.mk "Madagascar" "MG" "MDG" 450 "+261" Assignment.OFFICIALLY_ASSIGNED))),
  (Prod.mk "marshall islands" (Item.cc (CountryCode.mk "Marshall Islands" "MH" "MHL" 584 "+692" Assignment.OFFICIALLY_ASSIGNED))),
  (Prod.mk "macedonia, the former yugoslav republic of" (Item.cc (CountryCode.mk "Macedonia, the former Yugoslav Republic of" "MK" "MKD" 807 "+389" Assignment.OFFICIALLY_ASSIGNED))),
  (Prod.mk "mali" (Item.cc (CountryCode.mk "Mali" "ML" "MLI" 466 "+223" Assignment.OFFICIALLY_ASSIGNED))),
  (Prod.mk "myanmar" (Item.cc (CountryCode.mk "Myanmar" "MM" "MMR" 104 "+95" Assignment.OFFICIALLY_ASSIGNED))),
  (Prod.mk "mongolia" (Item.cc (CountryCode.mk "Mongolia" "MN" "MNG" 496 "+976" Assignment.OFFICIALLY_ASSIGNED))),
  (Prod.mk "macao" (Item.cc (CountryCode.mk "Macao" "MO" "MAC" 446 "+853" Assignment.OFFICIALLY_ASSIGNED))),
  (Prod.mk "northern mariana islands" (Item.cc (CountryCode.mk "Northern Mariana Islands" "MP" "MNP" 580 "+1-670" Assignment.OFFICIALLY_ASSIGNED))),
  (Prod.mk "martinique" (Item.cc (CountryCode.mk "Martinique" "MQ" "MTQ" 474 "+596" Assignment.OFFICIALLY_ASSIGNED))),
  (Prod.mk "mauritania" (Item.cc (CountryCode.mk "Mauritania" "MR" "MRT" 478 "+222" Assignment.OFFICIALLY_ASSIGNED))),
  (Prod.mk "montserrat" (Item.cc (CountryCode.mk "Montserrat" "MS" "MSR" 500 "+1-664" Assignment.OFFICIALLY_ASSIGNED))),
  (Prod.mk "malta" (Item.cc (CountryCode.mk "Malta" "MT" "MLT" 470 "+356" Assignment.OFFICIALLY_ASSIGNED))),
  (Prod.mk "mauritius" (Item.cc (CountryCode.mk "Mauritius" "MU" "MUS" 480 "+230" Assignment.OFFICIALLY_ASSIGNED))),
  (Prod.mk "maldives" (Item.cc (CountryCode.mk "Maldives" "MV" "MDV" 462 "+960" Assignment.OFFICIALLY_ASSIGNED))),
  (Prod.mk "malawi" (Item.cc (CountryCode.mk "Malawi" "MW" "MWI" 454 "+265" Assignment.OFFICIALLY_ASSIGNED))),
  (Prod.mk "mexico" (Item.cc (CountryCode.mk "Mexico" "MX" "MEX" 484 "+52" Assignment.OFFICIALLY_ASSIGNED))),
  (Prod.mk "malaysia" (Item.cc (CountryCode.mk "Malaysia" "MY" "MYS" 458 "+60" Assignment.OFFICIALLY_ASSIGNED))),
  (Prod.mk "mozambique" (Item.cc (CountryCode.mk "Mozambique" "MZ" "MOZ" 508 "+258" Assignment.OFFICIALLY_ASSIGNED))),
  (Prod.mk "namibia" (Item.cc (CountryCode.mk "Namibia" "NA" "NAM" 516 "+264" Assignment.OFFICIALLY_ASSIGNED))),
  (Prod.mk "new caledonia" (Item.cc (CountryCode.mk "New Caledonia" "NC" "NCL" 540 "+687" Assignment.OFFICIALLY_ASSIGNED))),
  (Prod.mk "niger" (Item.cc (CountryCode.mk "Niger" "NE" "NER" 562 "+227" Assignment.OFFICIALLY_ASSIGNED))),
  (Prod.mk "norfolk island" (Item.cc (CountryCode.mk "Norfolk Island" "NF" "NFK" 574 "+672" Assignment.OFFICIALLY_ASSIGNED))),
  (Prod.mk "nigeria" (Item.cc (CountryCode.mk "Nigeria" "NG" "NGA" 566 "+234" Assignment.OFFICIALLY_ASSIGNED))),
  (Prod.mk "nicaragua" (Item.cc (CountryCode.mk "Nicaragua" "NI" "NIC" 558 "+505" Assignment.OFFICIALLY_ASSIGNED))),
  (Prod.mk "netherlands" (Item.cc (CountryCode.mk "Netherlands" "NL" "NLD" 528 "+31" Assignment.OFFICIALLY_ASSIGNED))),
  (Prod.mk "norway" (Item.cc (CountryCode.mk "Norway" "NO" "NOR" 578 "+47" Assignment.OFFICIALLY_ASSIGNED))),
  (Prod.mk "nepal" (Item.cc (CountryCode.mk "Nepal" "NP" "NPL" 524 "+977" Assignment.OFFICIALLY_ASSIGNED))),
  (Prod.mk "nauru" (Item.cc (CountryCode.mk "Nauru" "NR" "NRU" 520 "+674" Assignment.OFFICIALLY_ASSIGNED))),
  (Prod.mk "neutral zone" (Item.cc (CountryCode.mk "Neutral Zone" "NT" "NTHH" 536 "" Assignment.TRANSITIONALLY_RESERVED))),
  (Prod.mk "niue" (Item.cc (CountryCode.mk "Niue" "NU" "NIU" 570 "+683" Assignment.OFFICIALLY_ASSIGNED))),
  (Prod.mk "new zealand" (Item.cc (CountryCode.mk "New Zealand" "NZ" "NZL" 554 "+64" Assignment.OFFICIALLY_ASSIGNED))),
  (Prod.mk "oman" (Item.cc (CountryCode.mk "Oman" "OM" "OMN" 512 "+968" Assignment.OFFICIALLY_ASSIGNED))),
  (Prod.mk "panama" (Item.cc (CountryCode.mk "Panama" "PA" "PAN" 591 "+507" Assignment.OFFICIALLY_ASSIGNED))),
  (Prod.mk "peru" (Item.cc (CountryCode.mk "Peru" "PE" "PER" 604 "+51" Assignment.OFFICIALLY_ASSIGNED))),
  (Prod.mk "french polynesia" (Item.cc (CountryCode.mk "French Polynesia" "PF" "PYF" 258 "+689" Assignment.OFFICIALLY_ASSIGNED))),
  (Prod.mk "papua new guinea" (Item.cc (CountryCode.mk "Papua New Guinea" "PG" "PNG" 598 "+675" Assignment.OFFICIALLY_ASSIGNED))),
  (Prod.mk "philippines" (Item.cc (CountryCode.mk "Philippines" "PH" "PHL" 608 "+63" Assignment.OFFICIALLY_ASSIGNED))),
  (Prod.mk "pakistan" (Item.cc (CountryCode.mk "Pakistan" "PK" "PAK" 586 "+92" Assignment.OFFICIALLY_ASSIGNED))),
  (Prod.mk "poland" (Item.cc (CountryCode.mk "Poland" "PL" "POL" 616 "+48" Assignment.OFFICIALLY_ASSIGNED))),
  (Prod.mk "saint pierre and miquelon" (Item.cc (CountryCode.mk "Saint Pierre and Miquelon" "PM" "SPM" 666 "+508" Assignment.OFFICIALLY_ASSIGNED))),
  (Prod.mk "pitcairn" (Item.cc (CountryCode.mk "Pitcairn" "PN" "PCN" 612 "+64" Assignment.OFFICIALLY_ASSIGNED))),
  (Prod.mk "puerto rico" (Item.cc (CountryCode.mk "Puerto Rico" "PR" "PRI" 630 "+1-787, +1-939" Assignment.OFFICIALLY_ASSIGNED))),
  (Prod.mk "palestine, state of" (Item.cc (CountryCode.mk "Palestine, State of" "PS" "PSE" 275 "+970" Assignment.OFFICIALLY_ASSIGNED))),
  (Prod.mk "portugal" (Item.cc (CountryCode.mk "Portugal" "PT" "PRT" 620 "+351" Assignment.OFFICIALLY_ASSIGNED))),
  (Prod.mk "palau" (Item.cc (CountryCode.mk "Palau" "PW" "PLW" 585 "+680" Assignment.OFFICIALLY_ASSIGNED))),
  (Prod.mk "paraguay" (Item.cc (CountryCode.mk "Paraguay" "PY" "PRY" 600 "+595" Assignment.OFFICIALLY_ASSIGNED))),
  (Prod.mk "qatar" (Item.cc (CountryCode.mk "Qatar" "QA" "QAT" 634 "+974" Assignment.OFFICIALLY_ASSIGNED))),
  (Prod.mk "r\u00E9union" (Item.cc (CountryCode.mk "R\u00E9union" "RE" "REU" 638 "+262" Assignment.OFFICIALLY_ASSIGNED))),
  (Prod.mk "romania" (Item.cc (CountryCode.mk "Romania" "RO" "ROU" 642 "+40" Assignment.OFFICIALLY_ASSIGNED))),
  (Prod.mk "serbia" (Item.cc (CountryCode.mk "Serbia" "RS" "SRB" 688 "+381" Assignment.OFFICIALLY_ASSIGNED))),
  (Prod.mk "russian federation" (Item.cc (CountryCode.mk "Russian Federation" "RU" "RUS" 643 "+7" Assignment.OFFICIALLY_ASSIGNED))),
  (Prod.mk "rwanda" (Item.cc (CountryCode.mk "Rwanda" "RW" "RWA" 646 "+250" Assignment.OFFICIALLY_ASSIGNED))),
  (Prod.mk "saudi arabia" (Item.cc (CountryCode.mk "Saudi Arabia" "SA" "SAU" 682 "+966" Assignment.OFFICIALLY_ASSIGNED))),
  (Prod.mk "solomon islands" (Item.cc (CountryCode.mk "Solomon Islands" "SB" "SLB" 90 "+677" Assignment.OFFICIALLY_ASSIGNED))),
  (Prod.mk "seychelles" (Item.cc (CountryCode.mk "Seychelles" "SC" "SYC" 690 "+248" Assignment.OFFICIALLY_ASSIGNED))),
  (Prod.mk "sudan" (Item.cc (CountryCode.mk "Sudan" "SD" "SDN" 729 "+249" Assignment.OFFICIALLY_ASSIGNED))),
  (Prod.mk "sweden" (Item.cc (CountryCode.mk "Sweden" "SE" "SWE" 752 "+46" Assignment.OFFICIALLY_ASSIGNED))),
  (Prod.mk "singapore" (Item.cc (CountryCode.mk "Singapore" "SG" "SGP" 702 "+65" Assignment.OFFICIALLY_ASSIGNED))),
  (Prod.mk "saint helena, ascension and tristan da cunha" (Item.cc (CountryCode.mk "Saint Helena, Ascension and Tristan da Cunha" "SH" "SHN" 654 "+290" Assignment.OFFICIALLY_ASSIGNED))),
  (Prod.mk "slovenia" (Item.cc (CountryCode.mk "Slovenia" "SI" "SVN" 705 "+386" Assignment.OFFICIALLY_ASSIGNED))),
  (Prod.mk "svalbard and jan mayen" (Item.cc (CountryCode.mk "Svalbard and Jan Mayen" "SJ" "SJM" 744 "+47" Assignment.OFFICIALLY_ASSIGNED))),
  (Prod.mk "slovakia" (Item.cc (CountryCode.mk "Slovakia" "SK" "SVK" 703 "+421" Assignment.OFFICIALLY_ASSIGNED))),
  (Prod.mk "sierra leone" (Item.cc (CountryCode.mk "Sierra Leone" "SL" "SLE" 694 "+232" Assignment.OFFICIALLY_ASSIGNED))),
  (Prod.mk "san marino" (Item.cc (CountryCode.mk "San Marino" "SM" "SMR" 674 "+378" Assignment.OFFICIALLY_ASSIGNED))),
  (Prod.mk "senegal" (Item.cc (CountryCode.mk "Senegal" "SN" "SEN" 686 "+221" Assignment.OFFICIALLY_ASSIGNED))),
  (Prod.mk "somalia" (Item.cc (CountryCode.mk "Somalia" "SO" "SOM" 706 "+252" Assignment.OFFICIALLY_ASSIGNED))),
  (Prod.mk "suriname" (Item.cc (CountryCode.mk "Suriname" "SR" "SUR" 740 "+597" Assignment.OFFICIALLY_ASSIGNED))),
  (Prod.mk "south sudan" (Item.cc (CountryCode.mk "South Sudan" "SS" "SSD" 728 "+211" Assignment.OFFICIALLY_ASSIGNED))),
  (Prod.mk "sao tome and principe" (Item.cc (CountryCode.mk "Sao Tome and Principe" "ST" "STP" 678 "+239" Assignment.OFFICIALLY_ASSIGNED))),
  (Prod.mk "ussr" (Item.cc (CountryCode.mk "USSR" "SU" "SUN" (-1) "+7" Assignment.EXCEPTIONALLY_RESERVED))),
  (Prod.mk "el salvador" (Item.cc (CountryCode.mk "El Salvador" "SV" "SLV" 222 "+503" Assignment.OFFICIALLY_ASSIGNED))),
  (Prod.mk "sint maarten (dutch part)" (Item.cc (CountryCode.mk "Sint Maarten (Dutch part)" "SX" "SXM" 534 "+1-721" Assignment.OFFICIALLY_ASSIGNED))),
  (Prod.mk "syrian arab republic" (Item.cc (CountryCode.mk "Syrian Arab Republic" "SY" "SYR" 760 "+963" Assignment.OFFICIALLY_ASSIGNED))),
  (Prod.mk "swaziland" (Item.cc (CountryCode.mk "Swaziland" "SZ" "SWZ" 748 "+268" Assignment.OFFICIALLY_ASSIGNED))),
  (Prod.mk "tristan da cunha" (Item.cc (CountryCode.mk "Tristan da Cunha" "TA" "TAA" (-1) "+290-8" Assignment.EXCEPTIONALLY_RESERVED))),
  (Prod.mk "turks and caicos islands" (Item.cc (CountryCode.mk "Turks and Caicos Islands" "TC" "TCA" 796 "+1-649" Assignment.OFFICIALLY_ASSIGNED))),
  (Prod.mk "chad" (Item.cc (CountryCode.mk "Chad" "TD" "TCD" 148 "+235" Assignment.OFFICIALLY_ASSIGNED))),
  (Prod.mk "french southern territories" (Item.cc (CountryCode.mk "French Southern Territories" "TF" "ATF" 260 "" Assignment.OFFICIALLY_ASSIGNED))),
  (Prod.mk "togo" (Item.cc (CountryCode.mk "Togo" "TG" "TGO" 768 "228" Assignment.OFFICIALLY_ASSIGNED))),
  (Prod.mk "thailand" (Item.cc (CountryCode.mk "Thailand" "TH" "THA" 764 "+66" Assignment.OFFICIALLY_ASSIGNED))),
  (Prod.mk "tajikistan" (Item.cc (CountryCode.mk "Tajikistan" "TJ" "TJK" 762 "+992" Assignment.OFFICIALLY_ASSIGNED))),
  (Prod.mk "tokelau" (Item.cc (CountryCode.mk "Tokelau" "TK" "TKL" 772 "+690" Assignment.OFFICIALLY_ASSIGNED))),
  (Prod.mk "timor-leste" (Item.cc (CountryCode.mk "Timor-Leste" "TL" "TLS" 626 "+670" Assignment.OFFICIALLY_ASSIGNED))),
  (Prod.mk "turkmenistan" (Item.cc (CountryCode.mk "Turkmenistan" "TM" "TKM" 795 "+993" Assignment.OFFICIALLY_ASSIGNED))),
  (Prod.mk "tunisia" (Item.cc (CountryCode.mk "Tunisia" "TN" "TUN" 788 "+216" Assignment.OFFICIALLY_ASSIGNED))),
  (Prod.mk "tonga" (Item.cc (CountryCode.mk "Tonga" "TO" "TON" 776 "+676" Assignment.OFFICIALLY_ASSIGNED))),
  (Prod.mk "east timor" (Item.cc (CountryCode.mk "East Timor" "TP" "TPTL" 0 "+670" Assignment.TRANSITIONALLY_RESERVED))),
  (Prod.mk "turkey" (Item.cc (CountryCode.mk "Turkey" "TR" "TUR" 792 "+90" Assignment.OFFICIALLY_ASSIGNED))),
  (Prod.mk "trinidad and tobago" (Item.cc (CountryCode.mk "Trinidad and Tobago" "TT" "TTO" 780 "+1-868" Assignment.OFFICIALLY_ASSIGNED))),
  (Prod.mk "tuvalu" (Item.cc (CountryCode.mk "Tuvalu" "TV" "TUV" 798 "+688" Assignment.OFFICIALLY_ASSIGNED))),
  (Prod.mk "taiwan, province of china" (Item.cc (CountryCode.mk "Taiwan, Province of China" "TW" "TWN" 158 "+886" Assignment.OFFICIALLY_ASSIGNED))),
  (Prod.mk "tanzania, united republic of" (Item.cc (CountryCode.mk "Tanzania, United Republic of" "TZ" "TZA" 834 "+255" Assignment.OFFICIALLY_ASSIGNED))),
  (Prod.mk "ukraine" (Item.cc (CountryCode.mk "Ukraine" "UA" "UKR" 804 "+380" Assignment.OFFICIALLY_ASSIGNED))),
  (Prod.mk "uganda" (Item.cc (CountryCode.mk "Uganda" "UG" "UGA" 800 "+256" Assignment.OFFICIALLY_ASSIGNED))),
  (Prod.mk "united states minor outlying islands" (Item.cc (CountryCode.mk "United States Minor Outlying Islands" "UM" "UMI" 581 "+1" Assignment.OFFICIALLY_ASSIGNED))),
  (Prod.mk "united states" (Item.cc (CountryCode.mk "United States" "US" "USA" 840 "+1" Assignment.OFFICIALLY_ASSIGNED))),
  (Prod.mk "uruguay" (Item.cc (CountryCode.mk "Uruguay" "UY" "URY" 858 "+598" Assignment.OFFICIALLY_ASSIGNED))),
  (Prod.mk "uzbekistan" (Item.cc (CountryCode.mk "Uzbekistan" "UZ" "UZB" 860 "+998" Assignment.OFFICIALLY_ASSIGNED))),
  (Prod.mk "holy see (vatican city state)" (Item.cc (CountryCode.mk "Holy See (Vatican City State)" "VA" "VAT" 336 "+379" Assignment.OFFICIALLY_ASSIGNED))),
  (Prod.mk "saint vincent and the grenadines" (Item.cc (CountryCode.mk "Saint Vincent and the Grenadines" "VC" "VCT" 670 "+1-784" Assignment.OFFICIALLY_ASSIGNED))),
  (Prod.mk "venezuela, bolivarian republic of" (Item.cc (CountryCode.mk "Venezuela, Bolivarian Republic of" "VE" "VEN" 862 "+58" Assignment.OFFICIALLY_ASSIGNED))),
  (Prod.mk "virgin islands, british" (Item.cc (CountryCode.mk "Virgin Islands, British" "VG" "VGB" 92 "+1-284" Assignment.OFFICIALLY_ASSIGNED))),
  (Prod.mk "virgin islands, u.s." (Item.cc (CountryCode.mk "Virgin Islands, U.S." "VI" "VIR" 850 "+1-340" Assignment.OFFICIALLY_ASSIGNED))),
  (Prod.mk "viet nam" (Item.cc (CountryCode.mk "Viet Nam" "VN" "VNM" 704 "+84" Assignment.OFFICIALLY_ASSIGNED))),
  (Prod.mk "vanuatu" (Item.cc (CountryCode.mk "Vanuatu" "VU" "VUT" 548 "+678" Assignment.OFFICIALLY_ASSIGNED))),
  (Prod.mk "wallis and futuna" (Item.cc (CountryCode.mk "Wallis and Futuna" "WF" "WLF" 876 "+681" Assignment.OFFICIALLY_ASSIGNED))),
  (Prod.mk "samoa" (Item.cc (CountryCode.mk "Samoa" "WS" "WSM" 882 "+685" Assignment.OFFICIALLY_ASSIGNED))),
  (Prod.mk "kosovo, republic of" (Item.cc (CountryCode.mk "Kosovo, Republic of" "XK" "XXK" (-1) "+383" Assignment.USER_ASSIGNED))),
  (Prod.mk "yemen" (Item.cc (CountryCode.mk "Yemen" "YE" "YEM" 887 "+967" Assignment.OFFICIALLY_ASSIGNED))),
  (Prod.mk "mayotte" (Item.cc (CountryCode.mk "Mayotte" "YT" "MYT" 175 "+262" Assignment.OFFICIALLY_ASSIGNED))),
  (Prod.mk "yugoslavia" (Item.cc (CountryCode.mk "Yugoslavia" "YU" "YUCS" 890 "+38" Assignment.TRANSITIONALLY_RESERVED))),
  (Prod.mk "south africa" (Item.cc (CountryCode.mk "South Africa" "ZA" "ZAF" 710 "+27" Assignment.OFFICIALLY_ASSIGNED))),
  (Prod.mk "zambia" (Item.cc (CountryCode.mk "Zambia" "ZM" "ZMB" 894 "+260" Assignment.OFFICIALLY_ASSIGNED))),
  (Prod.mk "zaire" (Item.cc (CountryCode.mk "Zaire" "ZR" "ZRCD" 0 "+243" Assignment.TRANSITIONALLY_RESERVED))),
  (Prod.mk "zimbabwe" (Item.cc (CountryCode.mk "Zimbabwe" "ZW" "ZWE" 716 "+263" Assignment.OFFICIALLY_ASSIGNED)))]

/-- Record literal of the AC (Ascension Island) table entry. -/
def acRec : CountryCode := (CountryCode.mk "Ascension Island" "AC" "ASC" (-1) "+247" Assignment.EXCEPTIONALLY_RESERVED)

/-- Record literal of the FI (Finland, officially assigned) table entry. -/
def fiRec : CountryCode := (CountryCode.mk "Finland" "FI" "FIN" 246 "+358" Assignment.OFFICIALLY_ASSIGNED)

/-- Record literal of the SF (Finland, transitionally reserved) table entry. -/
def sfRec : CountryCode := (CountryCode.mk "Finland" "SF" "FIN" 246 "+358" Assignment.TRANSITIONALLY_RESERVED)

/-- Record literal of the TP (East Timor) table entry. -/
def tpRec : CountryCode := (CountryCode.mk "East Timor" "TP" "TPTL" 0 "+670" Assignment.TRANSITIONALLY_RESERVED)

/-- Record literal of the UM (United States Minor Outlying Islands) table entry. -/
def umRec : CountryCode := (CountryCode.mk "United States Minor Outlying Islands" "UM" "UMI" 581 "+1" Assignment.OFFICIALLY_ASSIGNED)

set_option maxRecDepth 40000

/-- Helper: the trie built by `init` equals its precomputed value. -/
theorem name_trie_val : name_trie = trieLit := by decide

/-- Helper: `FindByName` expressed over the precomputed trie value. -/
theorem FindByName_lit (q : String) :
    FindByName q = collectCC (trieLit.filter (fun e => strStartsWith e.1 (strLower q))) := by
  unfold FindByName
  rw [name_trie_val]

/-- Helper: membership in `trieInsert t k v` means membership in `t` or
being the new entry. -/
theorem trieInsert_mem {t : List (String × Item)} {k : String} {v : Item}
    {e : String × Item} (h : e ∈ trieInsert t k v) : e ∈ t ∨ e = (k, v) := by
  unfold trieInsert at h
  split at h
  · exact Or.inl h
  · rcases List.mem_append.mp h with h' | h'
    · exact Or.inl h'
    · simp only [List.mem_singleton] at h'
      exact Or.inr h'

/-- Helper: every entry of the trie fold is an initial entry or the
lowercased-name entry of some inserted record. -/
theorem trie_fold_shape (l : List CountryCode) :
    ∀ (t : List (String × Item)) (e : String × Item),
      e ∈ l.foldl (fun t cc => trieInsert t (strLower cc.Name) (Item.cc cc)) t →
      e ∈ t ∨ ∃ c ∈ l, e = (strLower c.Name, Item.cc c) := by
  induction l with
  | nil =>
    intro t e he
    exact Or.inl he
  | cons c l ih =>
    intro t e he
    simp only [List.foldl_cons] at he
    rcases ih _ e he with h | ⟨c', hc', rfl⟩
    · rcases trieInsert_mem h with h' | rfl
      · exact Or.inl h'
      · exact Or.inr ⟨c, List.mem_cons_self _ _, rfl⟩
    · exact Or.inr ⟨c', List.mem_cons_of_mem _ hc', rfl⟩

/-- Helper: every entry of `name_trie` carries some record of the table
under its lowercased name. -/
theorem trie_shape : ∀ e ∈ name_trie, ∃ c, c ∈ records ∧ e = (strLower c.Name, Item.cc c) := by
  intro e he
  have h := trie_fold_shape records [] e (by simpa [name_trie] using he)
  rcases h with h' | ⟨c, hc, rfl⟩
  · cases h'
  · exact ⟨c, hc, rfl⟩

/-- Helper: `trieInsert` leaves its own key present. -/
theorem trieInsert_any_self (t : List (String × Item)) (k : String) (v : Item) :
    (trieInsert t k v).any (fun e => e.1 == k) = true := by
  unfold trieInsert
  split
  · assumption
  · simp [List.any_append]

/-- Helper: `trieInsert` preserves key presence. -/
theorem trieInsert_any_mono {t : List (String × Item)} {k : String}
    (k' : String) (v' : Item) (h : t.any (fun e => e.1 == k) = true) :
    (trieInsert t k' v').any (fun e => e.1 == k) = true := by
  unfold trieInsert
  split
  · exact h
  · simp [List.any_append, h]

/-- Helper: the trie fold preserves key presence. -/
theorem trie_fold_any (l : List CountryCode) :
    ∀ (t : List (String × Item)) (k : String), t.any (fun e => e.1 == k) = true →
      (l.foldl (fun t cc => trieInsert t (strLower cc.Name) (Item.cc cc)) t).any
        (fun e => e.1 == k) = true := by
  induction l with
  | nil =>
    intro t k h
    exact h
  | cons c l ih =>
    intro t k h
    simp only [List.foldl_cons]
    exact ih _ k (trieInsert_any_mono _ _ h)

/-- Helper: after folding, the lowercased name of every inserted record is a
key of the trie. -/
theorem trie_fold_key_of_mem (l : List CountryCode) :
    ∀ (t : List (String × Item)) (c : CountryCode), c ∈ l →
      (l.foldl (fun t cc => trieInsert t (strLower cc.Name) (Item.cc cc)) t).any
        (fun e => e.1 == strLower c.Name) = true := by
  induction l with
  | nil =>
    intro t c hc
    cases hc
  | cons c0 l ih =>
    intro t c hc
    simp only [List.foldl_cons]
    rcases List.mem_cons.mp hc with rfl | hc'
    · exact trie_fold_any l _ _ (trieInsert_any_self _ _ _)
    · exact ih _ c hc'

/-- Helper: every record of the table has its lowercased name as a key of
`name_trie`. -/
theorem trie_key_complete (r : CountryCode) (hr : r ∈ records) :
    ∃ e ∈ name_trie, e.1 = strLower r.Name := by
  have h := trie_fold_key_of_mem records [] r hr
  obtain ⟨e, he, hbeq⟩ := List.any_eq_true.mp h
  exact ⟨e, by simpa [name_trie] using he, by simpa using hbeq⟩

/-- Helper: when every item passes the type assertion, the visitor loop
returns all payloads. -/
theorem collectCC_eq (xs : List (String × Item))
    (h : ∀ e ∈ xs, (assertCC e.2).isSome = true) :
    collectCC xs = some (xs.filterMap (fun e => assertCC e.2)) := by
  induction xs with
  | nil => rfl
  | cons e rest ih =>
    have he : (assertCC e.2).isSome = true := h e (List.mem_cons_self _ _)
    obtain ⟨c, hc⟩ := Option.isSome_iff_exists.mp he
    have ih' := ih (fun e' he' => h e' (List.mem_cons_of_mem _ he'))
    simp [collectCC, hc, ih', List.filterMap_cons]


/-- Helper: `trieInsert` preserves distinctness of the keys. -/
theorem trieInsert_keys_nodup {t : List (String × Item)} (k : String) (v : Item)
    (h : (t.map Prod.fst).Nodup) : ((trieInsert t k v).map Prod.fst).Nodup := by
  unfold trieInsert
  split
  · exact h
  · rename_i hany
    have hk : k ∉ t.map Prod.fst := by
      intro hmem
      obtain ⟨e, he, hek⟩ := List.mem_map.mp hmem
      exact hany (List.any_eq_true.mpr ⟨e, he, by simp [hek]⟩)
    simp [List.nodup_append, h, hk]

/-- Helper: the trie fold keeps the keys distinct. -/
theorem trie_fold_keys_nodup (l : List CountryCode) :
    ∀ t : List (String × Item), (t.map Prod.fst).Nodup →
      ((l.foldl (fun t cc => trieInsert t (strLower cc.Name) (Item.cc cc)) t).map
        Prod.fst).Nodup := by
  induction l with
  | nil =>
    intro t h
    exact h
  | cons c l ih =>
    intro t h
    simp only [List.foldl_cons]
    exact ih _ (trieInsert_keys_nodup _ _ h)

/-- Helper: the keys of `name_trie` are distinct: the trie holds at most one
item per lowercased name. -/
theorem trie_keys_nodup : (name_trie.map Prod.fst).Nodup := by
  have h := trie_fold_keys_nodup records [] (by simp)
  simpa [name_trie] using h

/-- Helper: for entries of the trie's shape, the lowercased names of the
collected payloads are exactly the entry keys. -/
theorem collected_names_eq_keys : ∀ F : List (String × Item),
    (∀ e ∈ F, ∃ c, e = (strLower c.Name, Item.cc c)) →
    (F.filterMap (fun e => assertCC e.2)).map (fun c => strLower c.Name) =
      F.map Prod.fst := by
  intro F
  induction F with
  | nil =>
    intro h
    rfl
  | cons e rest ih =>
    intro h
    obtain ⟨c, rfl⟩ := h e (List.mem_cons_self _ _)
    have ih2 := ih (fun e2 he2 => h e2 (List.mem_cons_of_mem _ he2))
    have hcc : assertCC (Item.cc c) = some c := rfl
    simp [List.filterMap_cons, hcc, ih2]


/-- C1: the spec's operation table lists `GetByNumeric(code) -> (CountryRecord,
found)`, but the source defines no such function: `init` populates the
`by_numeric` map and nothing ever reads it.  Evaluating the embedded index at
the numeric code 246 shows the data an accessor would serve is present; only
the accessor is missing from the source. -/
theorem by_numeric_index_populated_without_accessor :
    ((by_numeric.lookup (246 : Int)).map CountryCode.Numeric) = some 246 := by decide

/-- C2 counterexample: `FindByName ""` does not return one record per table
entry: the trie is keyed by lowercased name and two names are duplicated, so
the visit yields 266 records while the table has 268. -/
theorem findByName_empty_count_ce :
    (FindByName "").map List.length ≠ some records.length := by
  rw [FindByName_lit]
  decide

/-- C2 (amended): `FindByName ""` returns a sequence of 266 records, one per
distinct lowercased display name, while the canonical table has 268 records
("Finland" and "United Kingdom" each name two records). -/
theorem findByName_empty_returns_266_of_268 :
    (FindByName "").map List.length = some 266 ∧ records.length = 268 := by
  rw [FindByName_lit]
  decide

/-- C3 counterexample: the SF record's lowercased name starts with "finland",
yet `FindByName "finland"` returns only the FI record: the result is not
exactly the set of records whose lowercased name starts with the query. -/
theorem findByName_finland_misses_duplicate :
    FindByName "finland" = some [fiRec] ∧ sfRec ∈ records ∧
      strStartsWith (strLower sfRec.Name) "finland" = true ∧ sfRec ∉ [fiRec] := by
  refine ⟨?_, by decide, by decide, by decide⟩
  rw [FindByName_lit]
  decide

/-- C3 (amended): `FindByName` never errors: it returns a sequence holding
only table records whose lowercased name starts with the lowercased query;
for every table record whose lowercased name starts with the lowercased
query some returned record has the same lowercased name; and the returned
records' lowercased names are pairwise distinct, so records sharing a
display name are deduplicated to exactly one representative per matching
name (with no match the sequence is empty). -/
theorem findByName_prefix_matches_by_name (q : String) :
    ∃ l, FindByName q = some l ∧
      (∀ c ∈ l, c ∈ records ∧ strStartsWith (strLower c.Name) (strLower q) = true) ∧
      (∀ r ∈ records, strStartsWith (strLower r.Name) (strLower q) = true →
        ∃ c ∈ l, strLower c.Name = strLower r.Name) ∧
      (l.map (fun c => strLower c.Name)).Nodup := by
  have hshapeF : ∀ e ∈ name_trie.filter (fun e => strStartsWith e.1 (strLower q)),
      ∃ c, c ∈ records ∧ e = (strLower c.Name, Item.cc c) :=
    fun e he => trie_shape e (List.mem_of_mem_filter he)
  have hsome : ∀ e ∈ name_trie.filter (fun e => strStartsWith e.1 (strLower q)),
      (assertCC e.2).isSome = true := by
    intro e he
    obtain ⟨c, _, rfl⟩ := hshapeF e he
    rfl
  refine ⟨(name_trie.filter (fun e => strStartsWith e.1 (strLower q))).filterMap
      (fun e => assertCC e.2), ?_, ?_, ?_, ?_⟩
  · show collectCC (name_trie.filter (fun e => strStartsWith e.1 (strLower q))) =
      some ((name_trie.filter (fun e => strStartsWith e.1 (strLower q))).filterMap
        (fun e => assertCC e.2))
    exact collectCC_eq _ hsome
  · intro c hc
    obtain ⟨e, heF, hee⟩ := List.mem_filterMap.mp hc
    obtain ⟨c', hc', rfl⟩ := hshapeF e heF
    have he1 : assertCC (Item.cc c') = some c' := rfl
    rw [he1, Option.some_inj] at hee
    subst hee
    refine ⟨hc', ?_⟩
    have hf := List.of_mem_filter heF
    simpa using hf
  · intro r hr hpre
    obtain ⟨e, he, hek⟩ := trie_key_complete r hr
    have heF : e ∈ name_trie.filter (fun e => strStartsWith e.1 (strLower q)) :=
      List.mem_filter.mpr ⟨he, by rw [hek]; exact hpre⟩
    obtain ⟨c, hcrec, rfl⟩ := hshapeF e heF
    refine ⟨c, List.mem_filterMap.mpr ⟨_, heF, rfl⟩, ?_⟩
    simpa using hek
  · rw [collected_names_eq_keys _ (fun e he => (hshapeF e he).imp (fun c hc => hc.2))]
    exact List.Nodup.sublist ((List.filter_sublist _).map _) trie_keys_nodup

/-- C3 witness: the amended statement at the query "finland". -/
theorem findByName_prefix_matches_by_name_w :
    ∃ l, FindByName "finland" = some l ∧
      (∀ c ∈ l, c ∈ records ∧ strStartsWith (strLower c.Name) (strLower "finland") = true) ∧
      (∀ r ∈ records, strStartsWith (strLower r.Name) (strLower "finland") = true →
        ∃ c ∈ l, strLower c.Name = strLower r.Name) ∧
      (l.map (fun c => strLower c.Name)).Nodup :=
  findByName_prefix_matches_by_name "finland"

/-- C4: looking up any table record's own alpha2 code returns that exact
record with found = true. -/
theorem getByAlpha2_roundtrip : ∀ r ∈ records, GetByAlpha2 r.Alpha2 = (r, true) := by decide

/-- C4 witness: the roundtrip at the AC record. -/
theorem getByAlpha2_roundtrip_w : GetByAlpha2 acRec.Alpha2 = (acRec, true) :=
  getByAlpha2_roundtrip acRec (by decide)

/-- C5: each accessor, on a key absent from its own corresponding index,
returns the zero-value record with found = false, independently of the other
indexes; the accessors are total functions, so no exception or panic is
possible. -/
theorem lookups_absent_key_zero_false (k : String) :
    (by_alpha2.lookup k = none → GetByAlpha2 k = (zeroCC, false)) ∧
    (by_alpha3.lookup k = none → GetByAlpha3 k = (zeroCC, false)) ∧
    (by_name.lookup k = none → GetByName k = (zeroCC, false)) := by
  refine ⟨fun h2 => ?_, fun h3 => ?_, fun hn => ?_⟩
  · unfold GetByAlpha2 mapGet
    rw [h2]
    exact rfl
  · unfold GetByAlpha3 mapGet
    rw [h3]
    exact rfl
  · unfold GetByName mapGet
    rw [hn]
    exact rfl

/-- C5 witness: "ZZ" is absent from each index, and each accessor reports
found = false with the zero record. -/
theorem lookups_absent_key_zero_false_w :
    GetByAlpha2 "ZZ" = (zeroCC, false) ∧ GetByAlpha3 "ZZ" = (zeroCC, false) ∧
      GetByName "ZZ" = (zeroCC, false) :=
  ⟨(lookups_absent_key_zero_false "ZZ").1 (by decide),
   (lookups_absent_key_zero_false "ZZ").2.1 (by decide),
   (lookups_absent_key_zero_false "ZZ").2.2 (by decide)⟩

/-- C6 counterexample: the FI and SF records are distinct table records that
share the non-empty alpha3 value "FIN". -/
theorem alpha3_fin_collision_ce : fiRec ∈ records ∧ sfRec ∈ records ∧ fiRec ≠ sfRec ∧
    fiRec.Alpha3 ≠ "" ∧ fiRec.Alpha3 = sfRec.Alpha3 := by decide

/-- Helper: away from the FIN collision, the alpha3 index maps each record's
alpha3 back to that record itself. -/
theorem alpha3_lookup_self : ∀ r ∈ records, r.Alpha3 ≠ "" →
    r.Alpha3 = "FIN" ∨ by_alpha3.lookup r.Alpha3 = some r := by decide

/-- C6 (amended): the only alpha3 collision in the canonical data is "FIN",
shared by the two Finland records; any two distinct records agreeing on a
non-empty alpha3 agree on that one value. -/
theorem alpha3_collision_only_fin : ∀ r1 ∈ records, ∀ r2 ∈ records,
    r1 ≠ r2 → r1.Alpha3 ≠ "" → r1.Alpha3 = r2.Alpha3 → r1.Alpha3 = "FIN" := by
  intro r1 h1 r2 h2 hne h3 heq
  rcases alpha3_lookup_self r1 h1 h3 with hfin | hl1
  · exact hfin
  · have h3x : r2.Alpha3 ≠ "" := heq ▸ h3
    rcases alpha3_lookup_self r2 h2 h3x with hfin | hl2
    · rw [heq]
      exact hfin
    · exfalso
      rw [heq, hl2] at hl1
      exact hne (Option.some_inj.mp hl1).symm

/-- C6 witness: the amended statement at the FI and SF records. -/
theorem alpha3_collision_only_fin_w : fiRec.Alpha3 = "FIN" :=
  alpha3_collision_only_fin fiRec (by decide) sfRec (by decide) (by decide) (by decide)
    (by decide)

/-- C7: every record with a non-empty alpha3 is found by `GetByAlpha3`, and
the record returned carries that same alpha3 value. -/
theorem getByAlpha3_nonempty_found : ∀ r ∈ records, r.Alpha3 ≠ "" →
    (GetByAlpha3 r.Alpha3).2 = true ∧ (GetByAlpha3 r.Alpha3).1.Alpha3 = r.Alpha3 := by decide

/-- C7 witness: the lookup at the FI record's alpha3 value. -/
theorem getByAlpha3_nonempty_found_w :
    (GetByAlpha3 fiRec.Alpha3).2 = true ∧ (GetByAlpha3 fiRec.Alpha3).1.Alpha3 = fiRec.Alpha3 :=
  getByAlpha3_nonempty_found fiRec (by decide) (by decide)

/-- C8: any query whose lowercased form is "united states minor" returns
exactly one record, the United States Minor Outlying Islands record, and
that record is what `GetByAlpha2 "UM"` returns with found = true. -/
theorem findByName_united_states_minor (s : String)
    (h : strLower s = "united states minor") :
    FindByName s = some [umRec] ∧ GetByAlpha2 "UM" = (umRec, true) := by
  constructor
  · rw [FindByName_lit, h]
    decide
  · decide

/-- C8 witness: the mixed-case query of the source's own test. -/
theorem findByName_united_states_minor_w :
    FindByName "United States Minor" = some [umRec] ∧ GetByAlpha2 "UM" = (umRec, true) :=
  findByName_united_states_minor "United States Minor" (by decide)

/-- C9 counterexample: the TP record's alpha3 is "TPTL", which is neither
empty nor three uppercase ASCII letters. -/
theorem alpha3_tp_four_letter_ce : tpRec ∈ records ∧
    ¬(tpRec.Alpha3 = "" ∨ (tpRec.Alpha3.length = 3 ∧ isUpperAscii tpRec.Alpha3 = true)) := by
  decide

/-- C9 (amended): every record's alpha3 is empty, three uppercase ASCII
letters, or — for the seven transitionally reserved entries AN, BU, CS, NT,
TP, YU, ZR — four uppercase ASCII letters. -/
theorem alpha3_empty_or_three_or_seven_four : ∀ r ∈ records,
    r.Alpha3 = "" ∨ (r.Alpha3.length = 3 ∧ isUpperAscii r.Alpha3 = true) ∨
      (r.Alpha3.length = 4 ∧ isUpperAscii r.Alpha3 = true ∧
        r.Alpha2 ∈ (["AN", "BU", "CS", "NT", "TP", "YU", "ZR"] : List String)) := by decide

/-- C9 witness: the amended statement at the AC record, whose alpha3 is the
three-letter "ASC". -/
theorem alpha3_empty_or_three_or_seven_four_w :
    acRec.Alpha3 = "" ∨ (acRec.Alpha3.length = 3 ∧ isUpperAscii acRec.Alpha3 = true) ∨
      (acRec.Alpha3.length = 4 ∧ isUpperAscii acRec.Alpha3 = true ∧
        acRec.Alpha2 ∈ (["AN", "BU", "CS", "NT", "TP", "YU", "ZR"] : List String)) :=
  alpha3_empty_or_three_or_seven_four acRec (by decide)

/-- C10: every item `init` stores in the trie is a `CountryCode`, so the
type assertion in the visitor of `FindByName` always succeeds: for every
query the embedded `FindByName` returns `some` list and never the `none`
that models a panic. -/
theorem findByName_never_panics (q : String) : (FindByName q).isSome = true := by
  have hsome : ∀ e ∈ name_trie.filter (fun e => strStartsWith e.1 (strLower q)),
      (assertCC e.2).isSome = true := by
    intro e he
    obtain ⟨c, _, rfl⟩ := trie_shape e (List.mem_of_mem_filter he)
    rfl
  show (collectCC (name_trie.filter (fun e => strStartsWith e.1 (strLower q)))).isSome = true
  rw [collectCC_eq _ hsome]
  rfl

/-- C10 witness: the statement at the no-match query of the spec's edge
case list. -/
theorem findByName_never_panics_w : (FindByName "zz-no-such-country").isSome = true :=
  findByName_never_panics "zz-no-such-country"

end CountryCodes
